import Mathlib

/-!
Verification of the d20-mc-simulator combat engine against its design
specification.  The Python sources (dice_roller.py, creature.py, duration.py,
adventuring_day.py, mm_bestiary.py, spells.py) are shallowly embedded below:
classes become structures, object identity becomes arena indices, mutation
becomes explicit state passing, and the shared numpy random generator becomes
an abstract stream of die results consumed in call order.  Python statements
that raise (a missing attribute, `list.remove` on an absent element) are
embedded as an error value that aborts the remaining statements of the method
while keeping the mutations already performed, matching Python exception
semantics.
-/

/-- Index of a creature object in the per-encounter arena. -/
abbrev CrId := Nat

/-- Index of a Duration object in the per-encounter arena. -/
abbrev DurId := Nat

/-- Python exceptions that the embedded methods can raise:
`attributeError` for access to an attribute no class defines, and
`valueError` for `list.remove` of an absent element. -/
inductive PyErr where
  | attributeError
  | valueError
  | typeError
deriving DecidableEq, Repr

/-- The damage types of `Creature.DAMAGE_TYPES` (creature.py). -/
inductive DamageType where
  | acid
  | bludgeoning
  | cold
  | fire
  | force
  | lightning
  | magic_bludgeoning
  | magic_piercing
  | magic_slashing
  | necrotic
  | piercing
  | poison
  | psychic
  | radiant
  | slashing
  | thunder
deriving DecidableEq, Repr

/-- The damage types reduced by the Heavy Armor Master trait, i.e. the literal
list in `Creature.take_damage_type` (creature.py lines 843-850). -/
def DamageType.isHeavyArmorMasterType : DamageType → Bool
  | .bludgeoning => true
  | .piercing => true
  | .slashing => true
  | .magic_bludgeoning => true
  | .magic_piercing => true
  | .magic_slashing => true
  | _ => false

/-- The six abilities of `Creature.ABILITIES`. -/
inductive Ability where
  | str
  | dex
  | con
  | int
  | wis
  | cha
deriving DecidableEq, Repr

/-- The `save_type` labels recognised by `Creature.saving_throw`. -/
inductive SaveType where
  | charm
  | magic
  | poison
deriving DecidableEq, Repr

/-- The two skills needed by `Creature.escape_grapple`. -/
inductive Skill where
  | athletics
  | acrobatics
deriving DecidableEq, Repr

/-- The shared numpy random generator (dice_roller.py).  `stream n` is the
result of the n-th die rolled since the start; `idx` counts how many die
results have been consumed so far.  All dice (`d20`, `d4`, ...) are bound to
this single generator exactly as in the source, so consuming order models
generator call order. -/
structure RNG where
  stream : Nat → Int
  idx : Nat

/-- Draw the next die result from the generator. -/
def RNG.next (g : RNG) : Int × RNG :=
  (g.stream g.idx, ⟨g.stream, g.idx + 1⟩)

/-- `roll_d20` (dice_roller.py lines 130-148): with advantage and not
disadvantage, roll two d20s (`d20.roll(2)`) and return `numpy.amax`; with
disadvantage and not advantage, return `numpy.amin`; otherwise a single plain
roll `d20()`. -/
def roll_d20 (advantage disadvantage : Bool) (g : RNG) : Int × RNG :=
  if advantage && !disadvantage then
    let n1 := g.next
    let n2 := n1.2.next
    (max n1.1 n2.1, n2.2)
  else if disadvantage && !advantage then
    let n1 := g.next
    let n2 := n1.2.next
    (min n1.1 n2.1, n2.2)
  else
    g.next

/-- A `d4()` call on the shared generator (used by Bane/Bless adjustments). -/
def d4_roll (g : RNG) : Int × RNG :=
  g.next

/-- Claim C9: `roll_d20` with advantage and not disadvantage returns the
maximum of the next two independent d20 draws; with disadvantage and not
advantage it returns their minimum; and requesting both simultaneously
cancels to a single plain roll, identical to requesting neither. -/
theorem roll_d20_adv_disadv_cancel (g : RNG) :
    roll_d20 true false g =
      (max (g.stream g.idx) (g.stream (g.idx + 1)), ⟨g.stream, g.idx + 2⟩) ∧
    roll_d20 false true g =
      (min (g.stream g.idx) (g.stream (g.idx + 1)), ⟨g.stream, g.idx + 2⟩) ∧
    roll_d20 true true g = roll_d20 false false g ∧
    roll_d20 false false g = (g.stream g.idx, ⟨g.stream, g.idx + 1⟩) := by
  refine ⟨?_, ?_, ?_, ?_⟩ <;> simp [roll_d20, RNG.next]

/-- The state of one `Creature` object (creature.py).  Static capability
fields are those set in `Creature.__init__` / `initialize_features`; dynamic
fields are those set in `reset_conditions` / `reset_hp`.  The fields
`swallowed_creatures`, `engulfed_creatures` and `damage_taken_this_turn` are
defined only on swallower/engulfer subclasses in the source (e.g.
`Behir.reset_conditions`, mm_bestiary.py lines 357-364, and
`ShamblingMound.reset_conditions`); they are carried here on every creature
and used only for such creatures.  No class anywhere in the repository
defines attributes named `end_turn_duartion` or `engulfed_creature`
(singular), so those two accesses in duration.py raise AttributeError. -/
structure Creature where
  abilities : Ability → Int
  save_modifiers : Ability → Int
  save_proficiencies : Ability → Bool
  skill_modifiers : Skill → Int
  skill_proficiencies : Skill → Bool
  skill_adv : Skill → Int
  skill_disadv : Skill → Int
  proficiency : Int
  heavy_armor_master : Bool
  war_caster : Bool
  evasion : Bool
  charm_adv : Bool
  gnome_cunning : Bool
  magic_resistance : Bool
  poison_adv : Bool
  resistances : DamageType → Bool
  vulnerabilities : DamageType → Bool
  immunities : DamageType → Bool
  hp : Int
  total_hp : Int
  death_ward : Bool
  prone : Bool
  action : Bool
  baned : Int
  blessed : Int
  blinded : Int
  frightened : Int
  paralyzed : Int
  poisoned : Int
  restrained : Int
  slowed : Int
  stunned : Int
  grappled : List DurId
  grappling : List DurId
  start_turn_duration : List DurId
  end_turn_duration : List DurId
  concentration : Option DurId
  engulfed : Option DurId
  swallowed : Option DurId
  turned : Option DurId
  swallowed_creatures : List CrId
  engulfed_creatures : List CrId
  damage_taken_this_turn : Int

/-- A creature with every static feature off and every dynamic condition in
its reset state (`reset_conditions`), used as the base for the concrete
scenarios below. -/
def defaultCreature : Creature where
  abilities := fun _ => 0
  save_modifiers := fun _ => 0
  save_proficiencies := fun _ => false
  skill_modifiers := fun _ => 0
  skill_proficiencies := fun _ => false
  skill_adv := fun _ => 0
  skill_disadv := fun _ => 0
  proficiency := 0
  heavy_armor_master := false
  war_caster := false
  evasion := false
  charm_adv := false
  gnome_cunning := false
  magic_resistance := false
  poison_adv := false
  resistances := fun _ => false
  vulnerabilities := fun _ => false
  immunities := fun _ => false
  hp := 1
  total_hp := 1
  death_ward := false
  prone := false
  action := false
  baned := 0
  blessed := 0
  blinded := 0
  frightened := 0
  paralyzed := 0
  poisoned := 0
  restrained := 0
  slowed := 0
  stunned := 0
  grappled := []
  grappling := []
  start_turn_duration := []
  end_turn_duration := []
  concentration := none
  engulfed := none
  swallowed := none
  turned := none
  swallowed_creatures := []
  engulfed_creatures := []
  damage_taken_this_turn := 0

/-- The per-instance data of the Duration objects needed by the claims
(duration.py and spells.py).  Other Duration subtypes of the source
(Bleeding, Frightened, Paralyzed, ...) are not referenced by any claim and
are not modelled. -/
inductive DurData where
  /-- `GrappleDuration(grappler, target, restrained, stunned, escape_priority)`. -/
  | grapple (grappler target : CrId) (restr stun : Bool) (escape_priority : Bool)
  /-- `SwallowedDuration(swallower, target, regurgitation_threshold,
  regurgitation_save_dc)`. -/
  | swallowedD (swallower target : CrId)
      (regurgitation_threshold regurgitation_save_dc : Int)
  /-- `EngulfedDuration(engulfer, target, save_dc)`. -/
  | engulfedD (engulfer target : CrId) (save_dc : Int)
  /-- `PoisonedDuration(poisoner, target, save_dc, duration)`; the last field
  is the mutable remaining duration. -/
  | poisonedD (poisoner target : CrId) (save_dc duration : Int)
  /-- A cast `Bless` spell held as a concentration effect (spells.py lines
  246-272): its caster, the creatures in `self.targets`, and the mutable
  remaining duration. -/
  | blessS (caster : CrId) (targets : List CrId) (duration : Int)
deriving DecidableEq, Repr

/-- The mutable world: the creature arena, the Duration arena, and the next
fresh Duration index. -/
structure World where
  creatures : CrId → Creature
  durs : DurId → Option DurData
  nextDur : DurId

/-- Read a creature object. -/
def World.cr (w : World) (i : CrId) : Creature :=
  w.creatures i

/-- Overwrite a creature object. -/
def World.setCr (w : World) (i : CrId) (c : Creature) : World :=
  { w with creatures := Function.update w.creatures i c }

/-- Mutate a creature object in place. -/
def World.updCr (w : World) (i : CrId) (f : Creature → Creature) : World :=
  w.setCr i (f (w.cr i))

/-- Overwrite a Duration object. -/
def World.setDur (w : World) (d : DurId) (x : DurData) : World :=
  { w with durs := Function.update w.durs d (some x) }

/-- Allocate a fresh Duration object, returning its index. -/
def World.allocDur (w : World) (x : DurData) : World × DurId :=
  ({ w with durs := Function.update w.durs w.nextDur (some x),
            nextDur := w.nextDur + 1 }, w.nextDur)

theorem cr_setCr (w : World) (i : CrId) (c : Creature) (j : CrId) :
    (w.setCr i c).cr j = if j = i then c else w.cr j := by
  simp [World.setCr, World.cr, Function.update_apply]

theorem cr_updCr (w : World) (i : CrId) (f : Creature → Creature) (j : CrId) :
    (w.updCr i f).cr j = if j = i then f (w.cr i) else w.cr j := by
  simp [World.updCr, cr_setCr]

theorem durs_setCr (w : World) (i : CrId) (c : Creature) :
    (w.setCr i c).durs = w.durs := by
  simp [World.setCr]

theorem durs_updCr (w : World) (i : CrId) (f : Creature → Creature) :
    (w.updCr i f).durs = w.durs := by
  simp [World.updCr, durs_setCr]

theorem cr_setDur (w : World) (d : DurId) (x : DurData) (j : CrId) :
    (w.setDur d x).cr j = w.cr j := by
  simp [World.setDur, World.cr]

/-- `list.remove(a)`: removes the first occurrence of `a`, raising ValueError
when `a` is absent. -/
def pyRemove {α : Type} [DecidableEq α] (l : List α) (a : α) :
    Except PyErr (List α) :=
  if a ∈ l then .ok (l.erase a) else .error .valueError

/-- Sequence two fallible mutating steps: a raise skips the rest of the
method body but keeps the mutations made so far. -/
def pyStep (r : World × Option PyErr) (f : World → World × Option PyErr) :
    World × Option PyErr :=
  match r.2 with
  | none => f r.1
  | some e => (r.1, some e)

/-- Python `int(x / 2)`: true division followed by `int`, which truncates
toward zero.  `Int.div` is exactly truncation toward zero. -/
def pyHalf (n : Int) : Int :=
  Int.tdiv n 2

/-- `Creature.is_incapacitated` (creature.py lines 513-516). -/
def is_incapacitated (c : Creature) : Bool :=
  c.paralyzed > 0 || c.stunned > 0

/-- `Creature.take_damage_type` (creature.py lines 829-870): reduce physical
damage by 3 for Heavy Armor Master, then apply resistance (`int(damage/2)`),
then vulnerability (double), then return 0 for non-positive damage or
immunity; otherwise subtract from hp and clamp hp at zero.  Returns the
damage actually taken together with the updated world. -/
def take_damage_type (i : CrId) (damage : Int) (damage_type : DamageType)
    (w : World) : Int × World :=
  let c := w.cr i
  let damage :=
    if c.heavy_armor_master && damage_type.isHeavyArmorMasterType then
      damage - 3
    else damage
  let damage := if c.resistances damage_type then pyHalf damage else damage
  let damage := if c.vulnerabilities damage_type then damage * 2 else damage
  if damage ≤ 0 || c.immunities damage_type then (0, w)
  else
    let c := { c with hp := c.hp - damage }
    let c := if c.hp < 0 then { c with hp := 0 } else c
    (damage, w.setCr i c)

/-- `Creature.heal` (creature.py lines 449-474): add the healing and clamp hp
at `total_hp` from above.  The final loop of the source ends any
`BleedingDuration` in `start_turn_duration` when `magic` is set; no modelled
Duration kind is a BleedingDuration, so that loop selects nothing here. -/
def heal (i : CrId) (healing : Int) (_magic : Bool) (w : World) : World :=
  let c := w.cr i
  let c := { c with hp := c.hp + healing }
  let c := if c.hp > c.total_hp then { c with hp := c.total_hp } else c
  w.setCr i c

/-- `Creature.roll_save` (creature.py lines 615-651): d20 + ability modifier
+ flat save modifier + proficiency if proficient, minus a d4 while Baned,
plus a d4 while Blessed. -/
def roll_save (i : CrId) (ability : Ability) (adv disadv : Bool) (w : World)
    (g : RNG) : Int × RNG :=
  let c := w.cr i
  let r0 := roll_d20 adv disadv g
  let result := r0.1 + c.abilities ability + c.save_modifiers ability
  let result := if c.save_proficiencies ability then result + c.proficiency
                else result
  let r1 :=
    if c.baned ≠ 0 then
      let b := d4_roll r0.2
      (result - b.1, b.2)
    else (result, r0.2)
  let r2 :=
    if c.blessed ≠ 0 then
      let b := d4_roll r1.2
      (r1.1 + b.1, b.2)
    else r1
  r2

/-- `Creature.saving_throw` (creature.py lines 690-745): auto-fail Str/Dex
saves while incapacitated; disadvantage on Dex saves while restrained; forced
advantage for the charm/magic/poison trait flags matching `save_type`;
success iff the rolled save meets the difficulty class. -/
def saving_throw (i : CrId) (ability : Ability) (difficulty_class : Int)
    (adv disadv : Bool) (save_type : Option SaveType) (w : World) (g : RNG) :
    Bool × RNG :=
  let c := w.cr i
  if is_incapacitated c && (ability = Ability.str || ability = Ability.dex)
  then (false, g)
  else
    let disadv := if c.restrained > 0 && ability = Ability.dex then true
                  else disadv
    let adv :=
      if (c.charm_adv && save_type = some SaveType.charm)
          || (c.gnome_cunning && save_type = some SaveType.magic
              && (ability = Ability.int || ability = Ability.wis
                  || ability = Ability.cha))
          || (c.magic_resistance && save_type = some SaveType.magic)
          || (c.poison_adv && save_type = some SaveType.poison) then true
      else adv
    let r := roll_save i ability adv disadv w g
    (r.1 ≥ difficulty_class, r.2)

/-- `Creature.roll_skill` (creature.py lines 653-688): intrinsic skill
advantage forces advantage; intrinsic skill disadvantage, being frightened or
being poisoned forces disadvantage; d20 + ability modifier + skill modifier +
proficiency if proficient.  Both modelled skills (athletics: str, acrobatics:
dex) use the ability given by `Creature.SKILLS`. -/
def roll_skill (i : CrId) (skill : Skill) (adv disadv : Bool) (w : World)
    (g : RNG) : Int × RNG :=
  let c := w.cr i
  let adv := if c.skill_adv skill > 0 then true else adv
  let disadv :=
    if c.skill_disadv skill > 0 || c.frightened > 0 || c.poisoned > 0 then
      true
    else disadv
  let ability := match skill with
    | Skill.athletics => Ability.str
    | Skill.acrobatics => Ability.dex
  let r0 := roll_d20 adv disadv g
  let result := r0.1 + c.abilities ability + c.skill_modifiers skill
  let result := if c.skill_proficiencies skill then result + c.proficiency
                else result
  (result, r0.2)

/-- `Creature.escape_grapple` (creature.py lines 247-280): compute the
athletics and acrobatics modifiers (ability + skill modifier + proficiency if
proficient + 5 for intrinsic skill advantage) and roll whichever skill has
the higher modifier (athletics on ties). -/
def escape_grapple (i : CrId) (adv : Bool) (w : World) (g : RNG) :
    Int × RNG :=
  let c := w.cr i
  let athletics_modifier :=
    c.abilities Ability.str + c.skill_modifiers Skill.athletics
  let athletics_modifier :=
    if c.skill_proficiencies Skill.athletics then
      athletics_modifier + c.proficiency
    else athletics_modifier
  let athletics_modifier :=
    if c.skill_adv Skill.athletics > 0 then athletics_modifier + 5
    else athletics_modifier
  let acrobatics_modifier :=
    c.abilities Ability.dex + c.skill_modifiers Skill.acrobatics
  let acrobatics_modifier :=
    if c.skill_proficiencies Skill.acrobatics then
      acrobatics_modifier + c.proficiency
    else acrobatics_modifier
  let acrobatics_modifier :=
    if c.skill_adv Skill.acrobatics > 0 then acrobatics_modifier + 5
    else acrobatics_modifier
  if athletics_modifier ≥ acrobatics_modifier then
    roll_skill i Skill.athletics adv false w g
  else
    roll_skill i Skill.acrobatics adv false w g

/-- Remove a Duration index from a creature's `grappling` list
(`self.grappler.grappling.remove(self)`). -/
def removeFromGrappling (i : CrId) (d : DurId) (w : World) :
    World × Option PyErr :=
  match pyRemove (w.cr i).grappling d with
  | .ok l => (w.updCr i fun c => { c with grappling := l }, none)
  | .error e => (w, some e)

/-- Remove a Duration index from a creature's `grappled` list. -/
def removeFromGrappled (i : CrId) (d : DurId) (w : World) :
    World × Option PyErr :=
  match pyRemove (w.cr i).grappled d with
  | .ok l => (w.updCr i fun c => { c with grappled := l }, none)
  | .error e => (w, some e)

/-- Remove a Duration index from a creature's `start_turn_duration` list. -/
def removeFromStartTurn (i : CrId) (d : DurId) (w : World) :
    World × Option PyErr :=
  match pyRemove (w.cr i).start_turn_duration d with
  | .ok l => (w.updCr i fun c => { c with start_turn_duration := l }, none)
  | .error e => (w, some e)

/-- Remove a Duration index from a creature's `end_turn_duration` list. -/
def removeFromEndTurn (i : CrId) (d : DurId) (w : World) :
    World × Option PyErr :=
  match pyRemove (w.cr i).end_turn_duration d with
  | .ok l => (w.updCr i fun c => { c with end_turn_duration := l }, none)
  | .error e => (w, some e)

/-- Remove a creature index from a swallower's `swallowed_creatures` list. -/
def removeFromSwallowedCreatures (i : CrId) (t : CrId) (w : World) :
    World × Option PyErr :=
  match pyRemove (w.cr i).swallowed_creatures t with
  | .ok l => (w.updCr i fun c => { c with swallowed_creatures := l }, none)
  | .error e => (w, some e)

/-- Remove a creature index from an engulfer's `engulfed_creatures` list. -/
def removeFromEngulfedCreatures (i : CrId) (t : CrId) (w : World) :
    World × Option PyErr :=
  match pyRemove (w.cr i).engulfed_creatures t with
  | .ok l => (w.updCr i fun c => { c with engulfed_creatures := l }, none)
  | .error e => (w, some e)

/-- `Duration.end` dispatched on the dynamic class of the Duration object.
Each branch is the corresponding `end` method of the source:
- `GrappleDuration.end` (duration.py lines 303-314): remove self from the
  grappler's `grappling` and the target's `grappled`; if `escape_priority`,
  remove self from the target's `start_turn_duration`; decrement the
  target's `restrained` and `stunned` counters for the flags applied.
- `SwallowedDuration.end` (duration.py lines 697-704): remove the target
  from the swallower's `swallowed_creatures`, clear `target.swallowed`,
  remove self from the target's start and end trigger lists, decrement the
  target's `blinded` and `restrained`, and set the target prone.
- `EngulfedDuration.end` (duration.py lines 140-144): decrement the target's
  `restrained`, clear `target.engulfed`, remove self from the target's
  `start_turn_duration`, and remove the target from the engulfer's
  `engulfed_creatures`.
- `PoisonedDuration.end` (duration.py lines 452-455): decrement the target's
  `poisoned`, remove self from the target's `end_turn_duration`, and remove
  self from the poisoner's `start_turn_duration`.
- `Bless.end` (spells.py lines 262-272): clear the caster's `concentration`
  and decrement `blessed` on every creature in `self.targets`.
`typeError` marks a dispatch on a freed or never-allocated index, which
cannot happen for the method calls of the source. -/
def Duration_end (d : DurId) (w : World) : World × Option PyErr :=
  match w.durs d with
  | some (.grapple grappler target restr stun escape_priority) =>
    pyStep (removeFromGrappling grappler d w) fun w =>
    pyStep (removeFromGrappled target d w) fun w =>
    pyStep (if escape_priority then removeFromStartTurn target d w
            else (w, none)) fun w =>
      let w := if restr then
          w.updCr target fun c => { c with restrained := c.restrained - 1 }
        else w
      let w := if stun then
          w.updCr target fun c => { c with stunned := c.stunned - 1 }
        else w
      (w, none)
  | some (.swallowedD swallower target _ _) =>
    pyStep (removeFromSwallowedCreatures swallower target w) fun w =>
      let w := w.updCr target fun c => { c with swallowed := none }
      pyStep (removeFromStartTurn target d w) fun w =>
      pyStep (removeFromEndTurn target d w) fun w =>
        (w.updCr target fun c =>
          { c with blinded := c.blinded - 1, restrained := c.restrained - 1,
                   prone := true }, none)
  | some (.engulfedD engulfer target _) =>
    let w := w.updCr target fun c =>
      { c with restrained := c.restrained - 1, engulfed := none }
    pyStep (removeFromStartTurn target d w) fun w =>
      removeFromEngulfedCreatures engulfer target w
  | some (.poisonedD poisoner target _ _) =>
    let w := w.updCr target fun c => { c with poisoned := c.poisoned - 1 }
    pyStep (removeFromEndTurn target d w) fun w =>
      removeFromStartTurn poisoner d w
  | some (.blessS caster targets _) =>
    let w := w.updCr caster fun c => { c with concentration := none }
    (targets.foldl (fun w t =>
      w.updCr t fun c => { c with blessed := c.blessed - 1 }) w, none)
  | none => (w, some .typeError)

/-- `for grapple in self.grappling[:]: grapple.end()` — end each Duration of
a snapshot list in order, a raise aborting the rest of the loop. -/
def end_each (l : List DurId) (w : World) : World × Option PyErr :=
  match l with
  | [] => (w, none)
  | d :: rest => pyStep (Duration_end d w) (end_each rest)

/-- `Creature.fall_unconscious` (creature.py lines 282-305): with an active
Death Ward and positive max hp, consume it and set hp to 1; otherwise fall
prone, end every grapple in `self.grappling` (a snapshot), and end the
active concentration effect if any.  Grapples in `self.grappled` (where this
creature is the grappled target) are not touched. -/
def fall_unconscious (i : CrId) (w : World) : World × Option PyErr :=
  let c := w.cr i
  if c.death_ward && c.total_hp > 0 then
    (w.setCr i { c with death_ward := false, hp := 1 }, none)
  else
    let w := w.setCr i { c with prone := true }
    pyStep (end_each (w.cr i).grappling w) fun w =>
      match (w.cr i).concentration with
      | some d => Duration_end d w
      | none => (w, none)

/-- The concentration-check statements of `Creature.take_damage`
(creature.py lines 921-930): if a concentration effect is held and the
damage taken is positive, make a Constitution saving throw against DC
`max(10, int(damage_taken/2))` with advantage iff the War Caster trait is
set, and end the concentration effect when the save fails. -/
def concentration_check (i : CrId) (damage_taken : Int) (w : World)
    (g : RNG) : World × RNG × Option PyErr :=
  match (w.cr i).concentration with
  | some cd =>
    if damage_taken > 0 then
      let sres := saving_throw i Ability.con
        (max 10 (pyHalf damage_taken)) ((w.cr i).war_caster) false none w g
      if sres.1 then (w, sres.2, none)
      else
        let de := Duration_end cd w
        (de.1, sres.2, de.2)
    else (w, g, none)
  | none => (w, g, none)

/-- The final statements of `Creature.take_damage` (creature.py lines
933-934): end any turned condition. -/
def turned_end (i : CrId) (w : World) : World × Option PyErr :=
  match (w.cr i).turned with
  | some td => Duration_end td w
  | none => (w, none)

/-- `Creature.take_damage` (creature.py lines 872-936): resolve the primary
and secondary damage components through `take_damage_type`, invoke
`fall_unconscious` when hp is exactly 0, then — if a concentration effect is
(still) held and the total damage taken is positive — make a Constitution
saving throw against DC `max(10, int(damage_taken/2))` with advantage iff
the War Caster trait is set, ending concentration on failure; finally end
any `turned` condition.  Returns the post-mitigation damage pair. -/
def take_damage (i : CrId) (primary_damage : Int) (primary_type : DamageType)
    (_dealer : Option CrId) (_ranged : Bool) (secondary_damage : Int)
    (secondary_type : Option DamageType) (w : World) (g : RNG) :
    (World × RNG) × Except PyErr (Int × Int) :=
  let r1 := take_damage_type i primary_damage primary_type w
  let r2 : Int × World :=
    match secondary_type with
    | some t => take_damage_type i secondary_damage t r1.2
    | none => (0, r1.2)
  let damage_taken := r1.1 + r2.1
  let r3 : World × Option PyErr :=
    if (r2.2.cr i).hp = 0 then fall_unconscious i r2.2 else (r2.2, none)
  match r3.2 with
  | some err => ((r3.1, g), .error err)
  | none =>
    let r4 := concentration_check i damage_taken r3.1 g
    match r4.2.2 with
    | some err => ((r4.1, r4.2.1), .error err)
    | none =>
      let r5 := turned_end i r4.1
      match r5.2 with
      | some err => ((r5.1, r4.2.1), .error err)
      | none => ((r5.1, r4.2.1), .ok (r1.1, r2.1))

/-- `Creature.half_saving_throw` (creature.py lines 316-382): make the
saving throw; on failure take full damage unless the save was Dex-based and
the combatant has Evasion; otherwise take half damage (`int(damage/2)`,
secondary halved likewise) unless the save succeeded and was Dex-based with
Evasion, in which case no damage is taken at all.  Returns the save
result. -/
def half_saving_throw (i : CrId) (ability : Ability)
    (difficulty_class : Int) (damage : Int) (damage_type : DamageType)
    (secondary_damage : Int) (secondary_type : Option DamageType)
    (adv disadv : Bool) (save_type : Option SaveType) (w : World) (g : RNG) :
    (World × RNG) × Except PyErr Bool :=
  let sres := saving_throw i ability difficulty_class adv disadv save_type w g
  let result := sres.1
  let g := sres.2
  if ¬ result ∧ ¬ (ability = Ability.dex ∧ (w.cr i).evasion) then
    let td := take_damage i damage damage_type none false
      secondary_damage secondary_type w g
    match td.2 with
    | .ok _ => (td.1, .ok result)
    | .error e => (td.1, .error e)
  else if ¬ (result ∧ ability = Ability.dex ∧ (w.cr i).evasion) then
    let td := take_damage i (pyHalf damage) damage_type none false
      (pyHalf secondary_damage) secondary_type w g
    match td.2 with
    | .ok _ => (td.1, .ok result)
    | .error e => (td.1, .error e)
  else
    ((w, g), .ok result)

/-- `Behir.take_damage` (mm_bestiary.py lines 366-388): the base
`Creature.take_damage`, then — when the dealer is one of the creatures in
`self.swallowed_creatures` — add the post-mitigation primary and secondary
damage taken to `damage_taken_this_turn`. -/
def Behir_take_damage (i : CrId) (primary_damage : Int)
    (primary_type : DamageType) (dealer : Option CrId) (ranged : Bool)
    (secondary_damage : Int) (secondary_type : Option DamageType)
    (w : World) (g : RNG) : (World × RNG) × Except PyErr (Int × Int) :=
  let td := take_damage i primary_damage primary_type dealer ranged
    secondary_damage secondary_type w g
  match td.2 with
  | .error e => (td.1, .error e)
  | .ok ps =>
    let w := td.1.1
    let w :=
      match dealer with
      | some dl =>
        if dl ∈ (w.cr i).swallowed_creatures then
          w.updCr i fun c =>
            { c with damage_taken_this_turn :=
                c.damage_taken_this_turn + (ps.1 + ps.2) }
        else w
      | none => w
    ((w, td.1.2), .ok ps)

/-- `for creature in swallower.swallowed_creatures[:]:
creature.swallowed.end()` — the release loop shared by
`Behir.fall_unconscious` (mm_bestiary.py lines 350-355) and
`SwallowedDuration.end_turn_effect` (duration.py lines 722-723). -/
def swallowed_end_each (l : List CrId) (w : World) : World × Option PyErr :=
  match l with
  | [] => (w, none)
  | cid :: rest =>
    match (w.cr cid).swallowed with
    | some sd => pyStep (Duration_end sd w) (swallowed_end_each rest)
    | none => (w, some .attributeError)

/-- `Behir.fall_unconscious` (mm_bestiary.py lines 350-355): the base
`Creature.fall_unconscious`, then end the swallowed condition of every
creature in `self.swallowed_creatures` (a snapshot). -/
def Behir_fall_unconscious (i : CrId) (w : World) : World × Option PyErr :=
  pyStep (fall_unconscious i w) fun w =>
    swallowed_end_each (w.cr i).swallowed_creatures w

/-- `GrappleDuration.__init__` (duration.py lines 256-301): append self to
the grappler's `grappling` and the target's `grappled`; if
`escape_priority`, append self to the target's `start_turn_duration`;
increment the target's `restrained` / `stunned` counters for the flags
applied.  Returns the new Duration index. -/
def GrappleDuration_init (grappler target : CrId)
    (restr stun escape_priority : Bool) (w : World) : World × DurId :=
  let (w, did) := w.allocDur (.grapple grappler target restr stun
    escape_priority)
  let w := w.updCr grappler fun c =>
    { c with grappling := c.grappling ++ [did] }
  let w := w.updCr target fun c => { c with grappled := c.grappled ++ [did] }
  let w := if escape_priority then
      w.updCr target fun c =>
        { c with start_turn_duration := c.start_turn_duration ++ [did] }
    else w
  let w := if restr then
      w.updCr target fun c => { c with restrained := c.restrained + 1 }
    else w
  let w := if stun then
      w.updCr target fun c => { c with stunned := c.stunned + 1 }
    else w
  (w, did)

/-- `SwallowedDuration.__init__` (duration.py lines 659-695): append the
target to the swallower's `swallowed_creatures`, set `target.swallowed`,
append self to the target's `start_turn_duration` and `end_turn_duration`,
and increment the target's `blinded` and `restrained`. -/
def SwallowedDuration_init (swallower target : CrId)
    (regurgitation_threshold regurgitation_save_dc : Int) (w : World) :
    World × DurId :=
  let (w, did) := w.allocDur (.swallowedD swallower target
    regurgitation_threshold regurgitation_save_dc)
  let w := w.updCr swallower fun c =>
    { c with swallowed_creatures := c.swallowed_creatures ++ [target] }
  let w := w.updCr target fun c =>
    { c with swallowed := some did,
             start_turn_duration := c.start_turn_duration ++ [did],
             end_turn_duration := c.end_turn_duration ++ [did],
             blinded := c.blinded + 1,
             restrained := c.restrained + 1 }
  (w, did)

/-- `EngulfedDuration.__init__` (duration.py lines 114-138): set the self
fields, increment the target's `restrained`, set `target.engulfed`, append
self to the target's `start_turn_duration` — and then execute
`engulfer.engulfed_creature.append(target)`.  No class in the repository
defines an attribute `engulfed_creature` (the engulfer classes define
`engulfed_creatures`, plural — mm_bestiary.py lines 1263 and 2738), so this
last statement raises AttributeError, leaving the mutations made so far in
place.  The allocated Duration index is `w.nextDur`. -/
def EngulfedDuration_init (engulfer target : CrId) (save_dc : Int)
    (w : World) : World × Option PyErr :=
  let (w, did) := w.allocDur (.engulfedD engulfer target save_dc)
  let w := w.updCr target fun c =>
    { c with restrained := c.restrained + 1,
             engulfed := some did,
             start_turn_duration := c.start_turn_duration ++ [did] }
  (w, some .attributeError)

/-- `PoisonedDuration.__init__` (duration.py lines 418-450): set the self
fields, increment the target's `poisoned` — and then execute
`target.end_turn_duartion.append(self)`.  No class in the repository defines
an attribute spelled `end_turn_duartion` (the Creature attribute is
`end_turn_duration`, creature.py line 565), so this statement raises
AttributeError: the target keeps the incremented `poisoned` counter, and the
append of self to `poisoner.start_turn_duration` on the following line is
never executed. -/
def PoisonedDuration_init (poisoner target : CrId)
    (save_dc max_duration : Int) (w : World) : World × Option PyErr :=
  let (w, _did) := w.allocDur (.poisonedD poisoner target save_dc
    max_duration)
  let w := w.updCr target fun c => { c with poisoned := c.poisoned + 1 }
  (w, some .attributeError)

/-- `Duration.tick` (duration.py lines 33-38) for the Duration kinds that
carry a remaining duration: decrement it and end the effect when it reaches
zero. -/
def Duration_tick (d : DurId) (w : World) : World × Option PyErr :=
  match w.durs d with
  | some (.poisonedD poisoner target save_dc dur) =>
    let w := w.setDur d (.poisonedD poisoner target save_dc (dur - 1))
    if dur - 1 = 0 then Duration_end d w else (w, none)
  | some (.blessS caster targets dur) =>
    let w := w.setDur d (.blessS caster targets (dur - 1))
    if dur - 1 = 0 then Duration_end d w else (w, none)
  | _ => (w, some .typeError)

/-- `GrappleDuration.tick` (duration.py lines 340-343) overrides the base
`Duration.tick` with `pass`: a grapple has no `duration` attribute and the
passage of rounds never decrements or ends it. -/
def GrappleDuration_tick (_d : DurId) (w : World) : World :=
  w

/-- The inner loop of `GrappleDuration.start_turn_effect` (duration.py lines
332-338): for every grapple in the target's `grappled` snapshot, compute the
escape DC `8 + grappler.proficiency + grappler.abilities["str"]` and end the
grapple when the escape check meets it. -/
def grapple_escape_loop (check : Int) (l : List DurId) (w : World) :
    World × Option PyErr :=
  match l with
  | [] => (w, none)
  | gid :: rest =>
    match w.durs gid with
    | some (.grapple grappler2 _ _ _ _) =>
      let escape_dc := 8 + (w.cr grappler2).proficiency
        + (w.cr grappler2).abilities Ability.str
      pyStep (if check ≥ escape_dc then Duration_end gid w else (w, none))
        (grapple_escape_loop check rest)
    | _ => (w, some .typeError)

/-- `Duration.start_turn_effect` dispatched on the dynamic class:
- `GrappleDuration.start_turn_effect` (duration.py lines 319-338): if the
  target has its action, consume it, roll `escape_grapple`, and end every
  grapple of the target whose escape DC the check meets.
- `SwallowedDuration.start_turn_effect` (duration.py lines 709-710): reset
  the swallower's `damage_taken_this_turn` to 0.
- `EngulfedDuration` does not override `start_turn_effect`, so the base
  `pass` (duration.py lines 30-31) applies.
- `PoisonedDuration.start_turn_effect` (duration.py lines 469-472): tick. -/
def Duration_start_turn_effect (d : DurId) (w : World) (g : RNG) :
    (World × RNG) × Option PyErr :=
  match w.durs d with
  | some (.grapple _ target _ _ _) =>
    if (w.cr target).action then
      let w := w.updCr target fun c => { c with action := false }
      let ck := escape_grapple target false w g
      let r := grapple_escape_loop ck.1 (w.cr target).grappled w
      ((r.1, ck.2), r.2)
    else ((w, g), none)
  | some (.swallowedD swallower _ _ _) =>
    (((w.updCr swallower fun c => { c with damage_taken_this_turn := 0 }),
      g), none)
  | some (.engulfedD _ _ _) => ((w, g), none)
  | some (.poisonedD _ _ _ _) =>
    let r := Duration_tick d w
    ((r.1, g), r.2)
  | some (.blessS _ _ _) => ((w, g), some .typeError)
  | none => ((w, g), some .typeError)

/-- `Duration.end_turn_effect` dispatched on the dynamic class:
- `GrappleDuration` and `EngulfedDuration` do not override
  `end_turn_effect`, so the base `pass` (duration.py lines 27-28) applies.
- `SwallowedDuration.end_turn_effect` (duration.py lines 712-723): when the
  swallower's `damage_taken_this_turn` meets the regurgitation threshold,
  the swallower makes a Constitution saving throw against the regurgitation
  DC and on failure every creature in `swallowed_creatures` has its
  swallowed condition ended.
- `PoisonedDuration.end_turn_effect` (duration.py lines 460-467): the target
  makes a Constitution saving throw against the save DC and on success the
  effect ends. -/
def Duration_end_turn_effect (d : DurId) (w : World) (g : RNG) :
    (World × RNG) × Option PyErr :=
  match w.durs d with
  | some (.grapple _ _ _ _ _) => ((w, g), none)
  | some (.swallowedD swallower _ threshold save_dc) =>
    if (w.cr swallower).damage_taken_this_turn ≥ threshold then
      let sres :=
        saving_throw swallower Ability.con save_dc false false none w g
      if sres.1 then ((w, sres.2), none)
      else
        let r := swallowed_end_each (w.cr swallower).swallowed_creatures w
        ((r.1, sres.2), r.2)
    else ((w, g), none)
  | some (.engulfedD _ _ _) => ((w, g), none)
  | some (.poisonedD _ target save_dc _) =>
    let sres := saving_throw target Ability.con save_dc false false none w g
    if sres.1 then
      let r := Duration_end d w
      ((r.1, sres.2), r.2)
    else ((w, sres.2), none)
  | some (.blessS _ _ _) => ((w, g), some .typeError)
  | none => ((w, g), some .typeError)

/-- `for effect in l: effect.start_turn_effect()` over a snapshot list. -/
def fire_start_turn_each (l : List DurId) (w : World) (g : RNG) :
    (World × RNG) × Option PyErr :=
  match l with
  | [] => ((w, g), none)
  | d :: rest =>
    let r := Duration_start_turn_effect d w g
    match r.2 with
    | none => fire_start_turn_each rest r.1.1 r.1.2
    | some e => (r.1, some e)

/-- The start-of-turn trigger pass of `Creature.start_turn` (creature.py
lines 793-794): fire `start_turn_effect` on a snapshot of the creature's own
`start_turn_duration` list, in list order. -/
def fire_start_turn_effects (i : CrId) (w : World) (g : RNG) :
    (World × RNG) × Option PyErr :=
  fire_start_turn_each (w.cr i).start_turn_duration w g

/-- `for effect in l: effect.end_turn_effect()` over a snapshot list. -/
def fire_end_turn_each (l : List DurId) (w : World) (g : RNG) :
    (World × RNG) × Option PyErr :=
  match l with
  | [] => ((w, g), none)
  | d :: rest =>
    let r := Duration_end_turn_effect d w g
    match r.2 with
    | none => fire_end_turn_each rest r.1.1 r.1.2
    | some e => (r.1, some e)

/-- `Creature.end_turn` (creature.py lines 241-245): fire `end_turn_effect`
on a snapshot of the creature's own `end_turn_duration` list, in list
order. -/
def Creature_end_turn (i : CrId) (w : World) (g : RNG) :
    (World × RNG) × Option PyErr :=
  fire_end_turn_each (w.cr i).end_turn_duration w g

theorem cr_allocDur (w : World) (x : DurData) (j : CrId) :
    (w.allocDur x).1.cr j = w.cr j := by
  simp [World.allocDur, World.cr]

/-- Build a world from a creature assignment and a list of pre-existing
Duration objects. -/
def mkWorld (f : CrId → Creature) (ds : List DurData) : World where
  creatures := f
  durs := fun d => ds[d]?
  nextDur := ds.length

/-- Claim C1, evaluated at the failing input: constructing a
`PoisonedDuration` on any pair of creatures raises AttributeError (the
constructor appends to the misspelled attribute `end_turn_duartion`) after
having already incremented the target's `poisoned` counter, and never
registers the instance on any trigger list — so no `end` can ever reverse
the increment; constructing an `EngulfedDuration` likewise raises
AttributeError (misspelled `engulfed_creature`) after incrementing the
target's `restrained`, setting its `engulfed` slot and appending to its
`start_turn_duration`, while the engulfer's `engulfed_creatures` list is
never updated — so the create-then-end round-trip law fails for these two
Duration subtypes. -/
theorem poisonedDuration_engulfedDuration_init_raise (w : World)
    (poisoner target engulfer etarget : CrId) (save_dc max_duration edc : Int) :
    (PoisonedDuration_init poisoner target save_dc max_duration w).2 =
      some PyErr.attributeError ∧
    ((PoisonedDuration_init poisoner target save_dc max_duration w).1.cr
        target).poisoned = (w.cr target).poisoned + 1 ∧
    (∀ j, ((PoisonedDuration_init poisoner target save_dc max_duration
        w).1.cr j).end_turn_duration = (w.cr j).end_turn_duration) ∧
    (∀ j, ((PoisonedDuration_init poisoner target save_dc max_duration
        w).1.cr j).start_turn_duration = (w.cr j).start_turn_duration) ∧
    (EngulfedDuration_init engulfer etarget edc w).2 =
      some PyErr.attributeError ∧
    ((EngulfedDuration_init engulfer etarget edc w).1.cr etarget).restrained
      = (w.cr etarget).restrained + 1 ∧
    ((EngulfedDuration_init engulfer etarget edc w).1.cr etarget).engulfed
      = some w.nextDur ∧
    ((EngulfedDuration_init engulfer etarget edc w).1.cr
        etarget).start_turn_duration
      = (w.cr etarget).start_turn_duration ++ [w.nextDur] ∧
    (∀ j, ((EngulfedDuration_init engulfer etarget edc w).1.cr
        j).engulfed_creatures = (w.cr j).engulfed_creatures) := by
  refine ⟨rfl, ?_, ?_, ?_, rfl, ?_, ?_, ?_, ?_⟩ <;>
    (try intro j) <;>
    simp [PoisonedDuration_init, EngulfedDuration_init, World.allocDur,
      World.updCr, World.setCr, World.cr, Function.update_apply] <;>
    (try split <;> simp_all)

/-- Modelled from the spec wording of the mitigation pipeline, for comparison
with `take_damage_type`: subtract 3 if Heavy Armor Master applies and the
type is a listed physical type, then resistance as `floor(damage/2)`, then
vulnerability as doubling, then zero out if immune (or if the staged damage
is non-positive). -/
def specMitigatedDamage (ham physicalType resist vuln immune : Bool)
    (damage : Int) : Int :=
  let damage := if ham && physicalType then damage - 3 else damage
  let damage := if resist then pyHalf damage else damage
  let damage := if vuln then damage * 2 else damage
  if damage ≤ 0 || immune then 0 else damage

/-- The damage that `take_damage_type` inflicts on creature `i` for `damage`
points of incoming damage of type `t`. -/
def mitigatedDamage (c : Creature) (t : DamageType) (damage : Int) : Int :=
  specMitigatedDamage c.heavy_armor_master t.isHeavyArmorMasterType
    (c.resistances t) (c.vulnerabilities t) (c.immunities t) damage

theorem mitigatedDamage_nonneg (c : Creature) (t : DamageType) (d : Int) :
    0 ≤ mitigatedDamage c t d := by
  simp only [mitigatedDamage, specMitigatedDamage]
  split <;> rename_i h <;> simp_all <;> omega

/-- Two creature states that agree on every field except possibly hp. -/
def sameExceptHp (c cNew : Creature) : Prop :=
  cNew = { c with hp := cNew.hp }

/-- The damage returned by `take_damage_type` is exactly the spec-ordered
mitigated damage. -/
theorem take_damage_type_fst (i : CrId) (d : Int) (t : DamageType)
    (w : World) :
    (take_damage_type i d t w).1 = mitigatedDamage (w.cr i) t d := by
  simp only [take_damage_type, mitigatedDamage, specMitigatedDamage]
  split_ifs <;> rfl

/-- `take_damage_type` subtracts the mitigated damage from the target's hp,
clamping at zero. -/
theorem take_damage_type_hp (i : CrId) (d : Int) (t : DamageType)
    (w : World) :
    ((take_damage_type i d t w).2.cr i).hp =
      if mitigatedDamage (w.cr i) t d = 0 then (w.cr i).hp
      else max 0 ((w.cr i).hp - mitigatedDamage (w.cr i) t d) := by
  simp only [take_damage_type, mitigatedDamage, specMitigatedDamage]
  split_ifs <;> simp_all [cr_setCr] <;> omega

/-- `take_damage_type` changes nothing but hp on any creature. -/
theorem take_damage_type_sameExceptHp (i : CrId) (d : Int) (t : DamageType)
    (w : World) (j : CrId) :
    sameExceptHp (w.cr j) ((take_damage_type i d t w).2.cr j) := by
  simp only [take_damage_type]
  split_ifs <;>
    (try rfl) <;>
    simp only [cr_setCr] <;>
    by_cases hj : j = i <;>
    simp only [hj, if_pos rfl, if_neg] <;>
    rfl

/-- Every non-hp field can be read through `sameExceptHp`. -/
theorem sameExceptHp_fields (c cNew : Creature) (h : sameExceptHp c cNew) :
    cNew.total_hp = c.total_hp ∧ cNew.concentration = c.concentration ∧
    cNew.turned = c.turned ∧ cNew.grappling = c.grappling ∧
    cNew.grappled = c.grappled ∧ cNew.death_ward = c.death_ward ∧
    cNew.war_caster = c.war_caster ∧ cNew.evasion = c.evasion ∧
    cNew.paralyzed = c.paralyzed ∧ cNew.stunned = c.stunned ∧
    cNew.restrained = c.restrained ∧ cNew.baned = c.baned ∧
    cNew.blessed = c.blessed ∧ cNew.abilities = c.abilities ∧
    cNew.save_modifiers = c.save_modifiers ∧
    cNew.save_proficiencies = c.save_proficiencies ∧
    cNew.proficiency = c.proficiency ∧
    cNew.swallowed_creatures = c.swallowed_creatures ∧
    cNew.damage_taken_this_turn = c.damage_taken_this_turn := by
  rw [h]
  exact ⟨rfl, rfl, rfl, rfl, rfl, rfl, rfl, rfl, rfl, rfl, rfl, rfl, rfl,
    rfl, rfl, rfl, rfl, rfl, rfl⟩

theorem pyHalf_eq_ediv (n : Int) (h : 0 ≤ n) : pyHalf n = n / 2 :=
  Int.tdiv_eq_ediv h (by norm_num)

theorem pyHalf_nonneg (n : Int) (h : 0 ≤ n) : 0 ≤ pyHalf n := by
  rw [pyHalf_eq_ediv n h]; omega

theorem pyHalf_le_self (n : Int) (h : 0 ≤ n) : pyHalf n ≤ n := by
  rw [pyHalf_eq_ediv n h]; omega

/-- With no applicable mitigation flag the mitigated damage is the raw
damage (or zero when non-positive). -/
theorem mitigatedDamage_id (c : Creature) (t : DamageType) (d : Int)
    (hres : c.resistances t = false) (hvul : c.vulnerabilities t = false)
    (himm : c.immunities t = false) (hham : c.heavy_armor_master = false) :
    mitigatedDamage c t d = if d ≤ 0 then 0 else d := by
  simp [mitigatedDamage, specMitigatedDamage, hres, hvul, himm, hham]

/-- Claim C4: `take_damage_type` applies mitigations in the fixed spec order
(Heavy Armor Master −3 on listed physical types, then resistance as
`floor(damage/2)`, then vulnerability as doubling, then zeroing for
immunity) — the spec-side pipeline `specMitigatedDamage`; consequently a
combatant both resistant and vulnerable to a damage type, not immune to it
and without applicable Heavy Armor Master, that takes damage 5 of that type
loses exactly `floor(5/2)*2 = 4` hit points, not 5. -/
theorem mitigation_fixed_order_resist_vuln (w : World) (i : CrId)
    (t : DamageType)
    (hres : (w.cr i).resistances t = true)
    (hvul : (w.cr i).vulnerabilities t = true)
    (himm : (w.cr i).immunities t = false)
    (hham : ((w.cr i).heavy_armor_master && t.isHeavyArmorMasterType)
      = false)
    (hhp : 4 ≤ (w.cr i).hp) :
    (∀ d : Int, (take_damage_type i d t w).1 =
      specMitigatedDamage (w.cr i).heavy_armor_master
        t.isHeavyArmorMasterType true true false d) ∧
    (take_damage_type i 5 t w).1 = 4 ∧
    ((take_damage_type i 5 t w).2.cr i).hp = (w.cr i).hp - 4 := by
  have hgen : ∀ d : Int, (take_damage_type i d t w).1 =
      specMitigatedDamage (w.cr i).heavy_armor_master
        t.isHeavyArmorMasterType true true false d := by
    intro d
    rw [take_damage_type_fst]
    unfold mitigatedDamage
    rw [hres, hvul, himm]
  have h5 : (take_damage_type i 5 t w).1 = 4 := by
    rw [hgen 5]
    simp [specMitigatedDamage, hham]
    decide
  refine ⟨hgen, h5, ?_⟩
  have hmd : mitigatedDamage (w.cr i) t 5 = 4 := by
    rw [← take_damage_type_fst i 5 t w, h5]
  rw [take_damage_type_hp, hmd]
  simp only [if_neg (by norm_num : ¬ (4 : Int) = 0)]
  omega

/-- A creature resistant and vulnerable to slashing damage with 10 hit
points. -/
def c4World : World :=
  mkWorld (fun _ =>
    { defaultCreature with
        hp := 10, total_hp := 10,
        resistances := fun t => decide (t = DamageType.slashing),
        vulnerabilities := fun t => decide (t = DamageType.slashing) }) []

theorem mitigation_fixed_order_resist_vuln_witness :
    (take_damage_type 0 5 DamageType.slashing c4World).1 = 4 ∧
    ((take_damage_type 0 5 DamageType.slashing c4World).2.cr 0).hp = 6 := by
  have h := mitigation_fixed_order_resist_vuln c4World 0 DamageType.slashing
    (by decide) (by decide) (by decide) (by decide) (by decide)
  exact ⟨h.2.1, by rw [h.2.2]; decide⟩

set_option maxHeartbeats 1000000 in
/-- When the mitigated damage leaves positive hp and the target holds no
concentration effect and no turned condition, `take_damage` with no
secondary component reduces to the single `take_damage_type` step: no
unconsciousness cascade runs, no saving throw is rolled (the generator is
untouched), and the post-mitigation damage pair is returned. -/
theorem take_damage_simple (i : CrId) (p : Int) (t : DamageType)
    (dl : Option CrId) (rg : Bool) (w : World) (g : RNG)
    (hlt : mitigatedDamage (w.cr i) t p < (w.cr i).hp)
    (hconc : (w.cr i).concentration = none)
    (hturn : (w.cr i).turned = none) :
    take_damage i p t dl rg 0 none w g =
      (((take_damage_type i p t w).2, g),
        .ok (mitigatedDamage (w.cr i) t p, 0)) := by
  have hmd := mitigatedDamage_nonneg (w.cr i) t p
  have hfst := take_damage_type_fst i p t w
  have hhp := take_damage_type_hp i p t w
  have hflds := sameExceptHp_fields _ _ (take_damage_type_sameExceptHp i p t w i)
  have hne : ¬ ((take_damage_type i p t w).2.cr i).hp = 0 := by
    rw [hhp]; split <;> omega
  simp only [take_damage, concentration_check, turned_end, hne, if_false,
    hfst, hflds.2.1, hconc, hflds.2.2.1, hturn]

set_option maxHeartbeats 1600000 in
/-- Claim C5: `half_saving_throw` applies damage asymmetrically around
Evasion.  For a combatant without Evasion (or a non-Dexterity save), save
failure applies the full stated damage and success applies
`floor(damage/2)`; for a combatant with Evasion making a Dexterity save,
success applies no damage at all and failure applies only
`floor(damage/2)`.  Stated for a target with no mitigation flags for the
damage type, so the hp loss equals the damage applied. -/
theorem half_saving_throw_evasion (w : World) (i : CrId) (ability : Ability)
    (dc damage : Int) (t : DamageType) (adv disadv : Bool)
    (st : Option SaveType) (g : RNG) (res : Bool)
    (hsave : (saving_throw i ability dc adv disadv st w g).1 = res)
    (hres : (w.cr i).resistances t = false)
    (hvul : (w.cr i).vulnerabilities t = false)
    (himm : (w.cr i).immunities t = false)
    (hham : (w.cr i).heavy_armor_master = false)
    (hconc : (w.cr i).concentration = none)
    (hturn : (w.cr i).turned = none)
    (hd : 0 ≤ damage) (hlt : damage < (w.cr i).hp) :
    (half_saving_throw i ability dc damage t 0 none adv disadv st w g).2 =
      .ok res ∧
    ((w.cr i).evasion = true ∧ ability = Ability.dex →
      (res = true →
        ((half_saving_throw i ability dc damage t 0 none adv disadv st w
          g).1.1.cr i).hp = (w.cr i).hp) ∧
      (res = false →
        ((half_saving_throw i ability dc damage t 0 none adv disadv st w
          g).1.1.cr i).hp = (w.cr i).hp - pyHalf damage)) ∧
    (¬ ((w.cr i).evasion = true ∧ ability = Ability.dex) →
      (res = false →
        ((half_saving_throw i ability dc damage t 0 none adv disadv st w
          g).1.1.cr i).hp = (w.cr i).hp - damage) ∧
      (res = true →
        ((half_saving_throw i ability dc damage t 0 none adv disadv st w
          g).1.1.cr i).hp = (w.cr i).hp - pyHalf damage)) := by
  have hh0 := pyHalf_nonneg damage hd
  have hh1 := pyHalf_le_self damage hd
  have hp_eq : ∀ D : Int, 0 ≤ D → D < (w.cr i).hp →
      ((take_damage_type i D t w).2.cr i).hp = (w.cr i).hp - D := by
    intro D h0 hD
    rw [take_damage_type_hp, mitigatedDamage_id _ _ _ hres hvul himm hham]
    split_ifs <;> omega
  have htd : ∀ D : Int, 0 ≤ D → D < (w.cr i).hp →
      take_damage i D t none false 0 none w
        ((saving_throw i ability dc adv disadv st w g).2) =
      (((take_damage_type i D t w).2,
        (saving_throw i ability dc adv disadv st w g).2),
        .ok (mitigatedDamage (w.cr i) t D, 0)) := by
    intro D h0 hD
    exact take_damage_simple i D t none false w _
      (by rw [mitigatedDamage_id _ _ _ hres hvul himm hham]
          split_ifs <;> omega) hconc hturn
  have hz : pyHalf 0 = 0 := by decide
  refine ⟨?_, fun hED => ⟨fun hres1 => ?_, fun hres0 => ?_⟩,
    fun hnED => ⟨fun hres0 => ?_, fun hres1 => ?_⟩⟩
  · by_cases hA : ability = Ability.dex
    · subst hA
      by_cases hE : (w.cr i).evasion = true <;> cases res <;>
        simp [half_saving_throw, hsave, hE, hz, htd damage hd hlt,
          htd (pyHalf damage) hh0 (by omega)]
    · have hn2 : ¬ (ability = Ability.dex ∧ (w.cr i).evasion = true) :=
        fun hp2 => hA hp2.1
      cases res <;>
        simp [half_saving_throw, hsave, hn2, hz, htd damage hd hlt,
          htd (pyHalf damage) hh0 (by omega)]
  · obtain ⟨hE, hA⟩ := hED
    subst hA
    subst hres1
    simp [half_saving_throw, hsave, hE]
  · obtain ⟨hE, hA⟩ := hED
    subst hA
    subst hres0
    simp [half_saving_throw, hsave, hE, hz,
      htd (pyHalf damage) hh0 (by omega)]
    exact hp_eq (pyHalf damage) hh0 (by omega)
  · have hn2 : ¬ (ability = Ability.dex ∧ (w.cr i).evasion = true) :=
      fun hp2 => hnED ⟨hp2.2, hp2.1⟩
    subst hres0
    simp [half_saving_throw, hsave, hn2, hz, htd damage hd hlt]
    exact hp_eq damage hd hlt
  · have hn2 : ¬ (ability = Ability.dex ∧ (w.cr i).evasion = true) :=
      fun hp2 => hnED ⟨hp2.2, hp2.1⟩
    subst hres1
    simp [half_saving_throw, hsave, hn2, hz,
      htd (pyHalf damage) hh0 (by omega)]
    exact hp_eq (pyHalf damage) hh0 (by omega)

/-- A combatant with Evasion and 10 hit points, and a generator whose d20
always shows 12 (so a DC 10 Dexterity save succeeds). -/
def c5World : World :=
  mkWorld (fun _ =>
    { defaultCreature with hp := 10, total_hp := 10, evasion := true }) []

def c5RNG : RNG :=
  ⟨fun _ => 12, 0⟩

theorem half_saving_throw_evasion_witness :
    ((half_saving_throw 0 Ability.dex 10 5 DamageType.fire 0 none false
      false none c5World c5RNG).1.1.cr 0).hp = 10 := by
  have h := half_saving_throw_evasion c5World 0 Ability.dex 10 5
    DamageType.fire false false none c5RNG true (by decide) (by decide)
    (by decide) (by decide) (by decide) (by decide) (by decide) (by decide)
    (by decide)
  exact (h.2.1 ⟨by decide, rfl⟩).1 rfl

/-- Both worlds give every creature the same hp and total hp.  All the
Duration bookkeeping (list removals, counter decrements, link clearing)
satisfies this: only `take_damage_type`, `heal` and the Death Ward branch of
`fall_unconscious` ever write hp. -/
def hpAndTotalEq (w w2 : World) : Prop :=
  ∀ j, (w2.cr j).hp = (w.cr j).hp ∧ (w2.cr j).total_hp = (w.cr j).total_hp

theorem hpAndTotalEq_refl (w : World) : hpAndTotalEq w w :=
  fun _ => ⟨rfl, rfl⟩

theorem hpAndTotalEq_trans {w1 w2 w3 : World} (h1 : hpAndTotalEq w1 w2)
    (h2 : hpAndTotalEq w2 w3) : hpAndTotalEq w1 w3 :=
  fun j => ⟨(h2 j).1.trans (h1 j).1, (h2 j).2.trans (h1 j).2⟩

theorem hpAndTotalEq_updCr (w : World) (i : CrId) (f : Creature → Creature)
    (hf : ∀ c, (f c).hp = c.hp ∧ (f c).total_hp = c.total_hp) :
    hpAndTotalEq w (w.updCr i f) := by
  intro j
  rw [cr_updCr]
  split
  · rename_i hj
    subst hj
    exact hf (w.cr j)
  · exact ⟨rfl, rfl⟩

theorem hpAndTotalEq_trans2 {w1 w2 w3 : World} (h2 : hpAndTotalEq w2 w3)
    (h1 : hpAndTotalEq w1 w2) : hpAndTotalEq w1 w3 :=
  hpAndTotalEq_trans h1 h2

theorem hpAndTotalEq_iteUpd (w : World) (P : Prop) [Decidable P]
    (i : CrId) (f : Creature → Creature)
    (hf : ∀ c, (f c).hp = c.hp ∧ (f c).total_hp = c.total_hp) :
    hpAndTotalEq w (if P then w.updCr i f else w) := by
  split
  · exact hpAndTotalEq_updCr w i f hf
  · exact hpAndTotalEq_refl w

theorem hpAndTotalEq_removeFromGrappling (i : CrId) (d : DurId) (w : World) :
    hpAndTotalEq w (removeFromGrappling i d w).1 := by
  unfold removeFromGrappling
  split <;> dsimp only
  · apply hpAndTotalEq_updCr
    exact fun c => ⟨rfl, rfl⟩
  · exact hpAndTotalEq_refl w

theorem hpAndTotalEq_removeFromGrappled (i : CrId) (d : DurId) (w : World) :
    hpAndTotalEq w (removeFromGrappled i d w).1 := by
  unfold removeFromGrappled
  split <;> dsimp only
  · apply hpAndTotalEq_updCr
    exact fun c => ⟨rfl, rfl⟩
  · exact hpAndTotalEq_refl w

theorem hpAndTotalEq_removeFromStartTurn (i : CrId) (d : DurId) (w : World) :
    hpAndTotalEq w (removeFromStartTurn i d w).1 := by
  unfold removeFromStartTurn
  split <;> dsimp only
  · apply hpAndTotalEq_updCr
    exact fun c => ⟨rfl, rfl⟩
  · exact hpAndTotalEq_refl w

theorem hpAndTotalEq_removeFromEndTurn (i : CrId) (d : DurId) (w : World) :
    hpAndTotalEq w (removeFromEndTurn i d w).1 := by
  unfold removeFromEndTurn
  split <;> dsimp only
  · apply hpAndTotalEq_updCr
    exact fun c => ⟨rfl, rfl⟩
  · exact hpAndTotalEq_refl w

theorem hpAndTotalEq_removeFromSwallowedCreatures (i t : CrId) (w : World) :
    hpAndTotalEq w (removeFromSwallowedCreatures i t w).1 := by
  unfold removeFromSwallowedCreatures
  split <;> dsimp only
  · apply hpAndTotalEq_updCr
    exact fun c => ⟨rfl, rfl⟩
  · exact hpAndTotalEq_refl w

theorem hpAndTotalEq_removeFromEngulfedCreatures (i t : CrId) (w : World) :
    hpAndTotalEq w (removeFromEngulfedCreatures i t w).1 := by
  unfold removeFromEngulfedCreatures
  split <;> dsimp only
  · apply hpAndTotalEq_updCr
    exact fun c => ⟨rfl, rfl⟩
  · exact hpAndTotalEq_refl w

theorem hpAndTotalEq_pyStep (w : World) (r : World × Option PyErr)
    (f : World → World × Option PyErr) (h1 : hpAndTotalEq w r.1)
    (h2 : ∀ w2, hpAndTotalEq w2 (f w2).1) :
    hpAndTotalEq w (pyStep r f).1 := by
  unfold pyStep
  cases r.2
  · exact hpAndTotalEq_trans h1 (h2 r.1)
  · exact h1

theorem hpAndTotalEq_blessFold (targets : List CrId) :
    ∀ w : World, hpAndTotalEq w
      (targets.foldl (fun w t =>
        w.updCr t fun c => { c with blessed := c.blessed - 1 }) w) := by
  induction targets with
  | nil => exact fun w => hpAndTotalEq_refl w
  | cons t rest ih =>
    intro w
    rw [List.foldl_cons]
    refine hpAndTotalEq_trans2 (ih _) ?_
    apply hpAndTotalEq_updCr
    exact fun c => ⟨rfl, rfl⟩

theorem hpAndTotalEq_Duration_end (d : DurId) (w : World) :
    hpAndTotalEq w (Duration_end d w).1 := by
  unfold Duration_end
  split
  · refine hpAndTotalEq_pyStep w _ _ (hpAndTotalEq_removeFromGrappling _ _ _)
      (fun w2 => ?_)
    refine hpAndTotalEq_pyStep w2 _ _ (hpAndTotalEq_removeFromGrappled _ _ _)
      (fun w3 => ?_)
    refine hpAndTotalEq_pyStep w3 _ _ ?_ (fun w4 => ?_)
    · split
      · exact hpAndTotalEq_removeFromStartTurn _ _ _
      · exact hpAndTotalEq_refl w3
    · dsimp only
      refine hpAndTotalEq_trans2 (hpAndTotalEq_iteUpd _ _ _ _ ?_)
        (hpAndTotalEq_iteUpd _ _ _ _ ?_) <;> exact fun c => ⟨rfl, rfl⟩
  · refine hpAndTotalEq_pyStep w _ _
      (hpAndTotalEq_removeFromSwallowedCreatures _ _ _) (fun w2 => ?_)
    refine hpAndTotalEq_trans2
      (hpAndTotalEq_pyStep _ _ _
        (hpAndTotalEq_removeFromStartTurn _ _ _) (fun w3 => ?_)) ?_
    · refine hpAndTotalEq_pyStep w3 _ _
        (hpAndTotalEq_removeFromEndTurn _ _ _) (fun w4 => ?_)
      dsimp only
      apply hpAndTotalEq_updCr
      exact fun c => ⟨rfl, rfl⟩
    · apply hpAndTotalEq_updCr
      exact fun c => ⟨rfl, rfl⟩
  · refine hpAndTotalEq_trans2
      (hpAndTotalEq_pyStep _ _ _
        (hpAndTotalEq_removeFromStartTurn _ _ _)
        (fun w2 => hpAndTotalEq_removeFromEngulfedCreatures _ _ _)) ?_
    apply hpAndTotalEq_updCr
    exact fun c => ⟨rfl, rfl⟩
  · refine hpAndTotalEq_trans2
      (hpAndTotalEq_pyStep _ _ _
        (hpAndTotalEq_removeFromEndTurn _ _ _)
        (fun w2 => hpAndTotalEq_removeFromStartTurn _ _ _)) ?_
    apply hpAndTotalEq_updCr
    exact fun c => ⟨rfl, rfl⟩
  · dsimp only
    refine hpAndTotalEq_trans2 (hpAndTotalEq_blessFold _ _) ?_
    apply hpAndTotalEq_updCr
    exact fun c => ⟨rfl, rfl⟩
  · exact hpAndTotalEq_refl w

theorem hpAndTotalEq_end_each (l : List DurId) :
    ∀ w : World, hpAndTotalEq w (end_each l w).1 := by
  induction l with
  | nil => exact fun w => hpAndTotalEq_refl w
  | cons d rest ih =>
    intro w
    exact hpAndTotalEq_pyStep w _ _ (hpAndTotalEq_Duration_end d w)
      (fun w2 => ih w2)

/-- Every creature's hp lies within `[0, total_hp]`. -/
def hpInv (w : World) : Prop :=
  ∀ j, 0 ≤ (w.cr j).hp ∧ (w.cr j).hp ≤ (w.cr j).total_hp

theorem hpInv_of_hpAndTotalEq {w w2 : World} (he : hpAndTotalEq w w2)
    (h : hpInv w) : hpInv w2 :=
  fun j => by rw [(he j).1, (he j).2]; exact h j

theorem take_damage_type_hpInv (i : CrId) (d : Int) (t : DamageType)
    (w : World) (h : hpInv w) : hpInv (take_damage_type i d t w).2 := by
  intro j
  have hflds := sameExceptHp_fields _ _ (take_damage_type_sameExceptHp i d t w j)
  rw [hflds.1]
  by_cases hj : j = i
  · subst hj
    rw [take_damage_type_hp]
    have hmd := mitigatedDamage_nonneg (w.cr j) t d
    have hji := h j
    split <;> omega
  · have hsame : ((take_damage_type i d t w).2.cr j).hp = (w.cr j).hp := by
      simp only [take_damage_type]
      split_ifs <;> simp [cr_setCr, hj]
    rw [hsame]
    exact h j

theorem fall_unconscious_hpInv (i : CrId) (w : World) (h : hpInv w) :
    hpInv (fall_unconscious i w).1 := by
  simp only [fall_unconscious]
  split
  · rename_i hcond
    simp only [Bool.and_eq_true, decide_eq_true_eq] at hcond
    dsimp only
    intro j
    rw [cr_setCr]
    split
    · refine ⟨by norm_num, ?_⟩
      show (1 : Int) ≤ (w.cr i).total_hp
      omega
    · exact h j
  · have h1 : hpInv (w.setCr i
        { w.cr i with prone := true }) := by
      intro j
      rw [cr_setCr]
      split
      · exact h i
      · exact h j
    refine hpInv_of_hpAndTotalEq (hpAndTotalEq_pyStep _ _ _
      (hpAndTotalEq_end_each _ _) (fun w2 => ?_)) h1
    cases hc : (w2.cr i).concentration
    · simp only [hc]
      exact hpAndTotalEq_refl w2
    · simp only [hc]
      exact hpAndTotalEq_Duration_end _ _

theorem Duration_end_hpInv (d : DurId) (w : World) (h : hpInv w) :
    hpInv (Duration_end d w).1 :=
  hpInv_of_hpAndTotalEq (hpAndTotalEq_Duration_end d w) h

theorem concentration_check_hpInv (i : CrId) (dtk : Int) (w : World)
    (g : RNG) (h : hpInv w) : hpInv (concentration_check i dtk w g).1 := by
  unfold concentration_check
  cases hc : (w.cr i).concentration
  · exact h
  · dsimp only
    split
    · split
      · exact h
      · exact Duration_end_hpInv _ _ h
    · exact h

theorem turned_end_hpInv (i : CrId) (w : World) (h : hpInv w) :
    hpInv (turned_end i w).1 := by
  unfold turned_end
  cases ht : (w.cr i).turned
  · exact h
  · exact Duration_end_hpInv _ _ h

theorem take_damage_hpInv (i : CrId) (p : Int) (pt : DamageType)
    (dl : Option CrId) (rg : Bool) (sd : Int) (st : Option DamageType)
    (w : World) (g : RNG) (h : hpInv w) :
    hpInv ((take_damage i p pt dl rg sd st w g).1.1) := by
  have h1 : hpInv (take_damage_type i p pt w).2 :=
    take_damage_type_hpInv i p pt w h
  simp only [take_damage]
  have hgen : ∀ (r2 : Int × World), hpInv r2.2 → ∀ dtk : Int,
      hpInv ((match (if (r2.2.cr i).hp = 0 then fall_unconscious i r2.2
          else (r2.2, none) : World × Option PyErr).2 with
        | some err =>
          (((if (r2.2.cr i).hp = 0 then fall_unconscious i r2.2
            else (r2.2, none) : World × Option PyErr).1, g), .error err)
        | none =>
          let r4 := concentration_check i dtk
            (if (r2.2.cr i).hp = 0 then fall_unconscious i r2.2
              else (r2.2, none) : World × Option PyErr).1 g
          match r4.2.2 with
          | some err => ((r4.1, r4.2.1), .error err)
          | none =>
            let r5 := turned_end i r4.1
            match r5.2 with
            | some err => ((r5.1, r4.2.1), .error err)
            | none => ((r5.1, r4.2.1),
                Except.ok (((take_damage_type i p pt w).1 : Int), r2.1))
        : (World × RNG) × Except PyErr (Int × Int)).1.1) := by
    intro r2 h2 dtk
    have h3 : hpInv (if (r2.2.cr i).hp = 0 then fall_unconscious i r2.2
        else (r2.2, none) : World × Option PyErr).1 := by
      split
      · exact fall_unconscious_hpInv i r2.2 h2
      · exact h2
    cases (if (r2.2.cr i).hp = 0 then fall_unconscious i r2.2
        else (r2.2, none) : World × Option PyErr).2
    · dsimp only
      have h4 := concentration_check_hpInv i dtk _ g h3
      cases (concentration_check i dtk
          (if (r2.2.cr i).hp = 0 then fall_unconscious i r2.2
            else (r2.2, none) : World × Option PyErr).1 g).2.2
      · dsimp only
        have h5 := turned_end_hpInv i _ h4
        cases (turned_end i (concentration_check i dtk
            (if (r2.2.cr i).hp = 0 then fall_unconscious i r2.2
              else (r2.2, none) : World × Option PyErr).1 g).1).2
        · exact h5
        · exact h5
      · exact h4
    · exact h3
  cases st
  · exact hgen (0, (take_damage_type i p pt w).2) h1 _
  · rename_i t2
    exact hgen (take_damage_type i sd t2 (take_damage_type i p pt w).2)
      (take_damage_type_hpInv i sd t2 _ h1) _

theorem heal_hpInv (i : CrId) (a : Int) (m : Bool) (w : World)
    (ha : 0 ≤ a) (h : hpInv w) : hpInv (heal i a m w) := by
  intro j
  simp only [heal]
  rw [cr_setCr]
  split
  · have hi := h i
    split_ifs <;> constructor <;> simp <;> omega
  · exact h j

/-- One call of the hp-changing interface: a `take_damage` call (primary
and optional secondary component) or a `heal` call. -/
inductive HpOp where
  | dmgOp (primary : Int) (ptype : DamageType) (dealer : Option CrId)
      (secondary : Int) (stype : Option DamageType)
  | healOp (amount : Int) (magic : Bool)

/-- Apply one `HpOp` to combatant `i`. -/
def applyHpOp (i : CrId) (s : World × RNG) (op : HpOp) : World × RNG :=
  match op with
  | .dmgOp p pt dl sd st => (take_damage i p pt dl false sd st s.1 s.2).1
  | .healOp a m => (heal i a m s.1, s.2)

/-- Apply a finite sequence of `take_damage` / `heal` calls in order. -/
def applyHpOps (i : CrId) (ops : List HpOp) (s : World × RNG) :
    World × RNG :=
  ops.foldl (applyHpOp i) s

/-- The claim's hypothesis: nonnegative damage and healing amounts. -/
def opNonneg : HpOp → Prop
  | .dmgOp p _ _ sd _ => 0 ≤ p ∧ 0 ≤ sd
  | .healOp a _ => 0 ≤ a

instance : DecidablePred opNonneg := fun op =>
  match op with
  | .dmgOp p _ _ sd _ => inferInstanceAs (Decidable (0 ≤ p ∧ 0 ≤ sd))
  | .healOp a _ => inferInstanceAs (Decidable (0 ≤ a))

/-- Claim C3: for every combatant and every finite sequence of
`take_damage` and `heal` calls with nonnegative amounts, every creature's
hit points remain within `[0, total_hp]` after every call: `take_damage`
clamps hp at 0 from below and `heal` clamps hp at `total_hp` from above.
Since the statement holds for every operation list, it holds in particular
for every prefix, i.e. at every observation point of a longer sequence. -/
theorem hp_stays_clamped (i : CrId) (ops : List HpOp) (s : World × RNG)
    (hops : ∀ op ∈ ops, opNonneg op) (h : hpInv s.1) :
    hpInv (applyHpOps i ops s).1 := by
  induction ops generalizing s with
  | nil => exact h
  | cons op rest ih =>
    simp only [applyHpOps, List.foldl_cons] at *
    refine ih _ (fun o ho => hops o (List.mem_cons_of_mem _ ho)) ?_
    cases op with
    | dmgOp p pt dl sd st =>
      exact take_damage_hpInv i p pt dl false sd st s.1 s.2 h
    | healOp a m =>
      exact heal_hpInv i a m s.1 (hops _ (List.mem_cons_self _ _)) h

/-- A 10-hp combatant and a damage/heal sequence that overshoots in both
directions. -/
def c3World : World :=
  mkWorld (fun _ => { defaultCreature with hp := 10, total_hp := 10 }) []

def c3Ops : List HpOp :=
  [HpOp.dmgOp 7 DamageType.fire none 0 none,
   HpOp.healOp 25 false,
   HpOp.dmgOp 100 DamageType.cold none 3 (some DamageType.acid)]

def c3RNG : RNG :=
  ⟨fun _ => 10, 0⟩

theorem hp_stays_clamped_witness :
    0 ≤ ((applyHpOps 0 c3Ops (c3World, c3RNG)).1.cr 0).hp ∧
    ((applyHpOps 0 c3Ops (c3World, c3RNG)).1.cr 0).hp ≤
      ((applyHpOps 0 c3Ops (c3World, c3RNG)).1.cr 0).total_hp :=
  hp_stays_clamped 0 c3Ops (c3World, c3RNG) (by decide)
    (fun j => show (0 : Int) ≤ 10 ∧ (10 : Int) ≤ 10 by norm_num) 0

theorem durs_take_damage_type (i : CrId) (d : Int) (t : DamageType)
    (w : World) : (take_damage_type i d t w).2.durs = w.durs := by
  simp only [take_damage_type]
  split_ifs <;> simp [durs_setCr]

theorem blessFold_cr_fields (ts : List CrId) :
    ∀ (w : World) (j : CrId),
      (((ts.foldl (fun w t =>
          w.updCr t fun c => { c with blessed := c.blessed - 1 }) w).cr
        j).concentration = (w.cr j).concentration) ∧
      (((ts.foldl (fun w t =>
          w.updCr t fun c => { c with blessed := c.blessed - 1 }) w).cr
        j).turned = (w.cr j).turned) := by
  induction ts with
  | nil => exact fun w j => ⟨rfl, rfl⟩
  | cons t rest ih =>
    intro w j
    rw [List.foldl_cons]
    refine ⟨((ih _ j).1).trans ?_, ((ih _ j).2).trans ?_⟩ <;>
      rw [cr_updCr] <;> split <;> simp_all

/-- Ending a held Bless spell clears the caster's concentration slot, raises
no error, and touches no creature's `turned` slot. -/
theorem Bless_end_effects (cd : DurId) (w : World) (i : CrId)
    (ts : List CrId) (dur : Int)
    (hdur : w.durs cd = some (.blessS i ts dur)) :
    (Duration_end cd w).2 = none ∧
    ((Duration_end cd w).1.cr i).concentration = none ∧
    (∀ j, ((Duration_end cd w).1.cr j).turned = (w.cr j).turned) := by
  unfold Duration_end
  simp only [hdur]
  refine ⟨by first | rfl | trivial, ?_, ?_⟩
  · rw [(blessFold_cr_fields ts _ i).1, cr_updCr]
    simp
  · intro j
    rw [(blessFold_cr_fields ts _ j).2, cr_updCr]
    split <;> simp_all

/-- For a Constitution saving throw with no `save_type` label, none of the
forced advantage/disadvantage rules of `saving_throw` applies: the result is
exactly the rolled save, with advantage precisely as passed in. -/
theorem saving_throw_con_plain (i : CrId) (dc : Int) (adv : Bool)
    (w2 : World) (g2 : RNG) :
    saving_throw i Ability.con dc adv false none w2 g2 =
      (decide ((roll_save i Ability.con adv false w2 g2).1 ≥ dc),
        (roll_save i Ability.con adv false w2 g2).2) := by
  simp [saving_throw]

theorem take_damage_type_world_of_zero (i : CrId) (d : Int) (t : DamageType)
    (w : World) (h : mitigatedDamage (w.cr i) t d = 0) :
    (take_damage_type i d t w).2 = w := by
  simp only [mitigatedDamage, specMitigatedDamage] at h
  simp only [take_damage_type]
  split_ifs at h ⊢ <;> simp_all

/-- `fall_unconscious` on a combatant with no Death Ward, no active
grapples as grappler, and a held Bless concentration: it raises nothing,
ends the Bless (clearing the concentration slot) and touches no turned
slot. -/
theorem fall_unconscious_bless (i : CrId) (cd : DurId) (ts : List CrId)
    (dur : Int) (W : World)
    (hdw : (W.cr i).death_ward = false)
    (hgr : (W.cr i).grappling = [])
    (hconc : (W.cr i).concentration = some cd)
    (hdur : W.durs cd = some (DurData.blessS i ts dur)) :
    (fall_unconscious i W).2 = none ∧
    ((fall_unconscious i W).1.cr i).concentration = none ∧
    ((fall_unconscious i W).1.cr i).turned = (W.cr i).turned := by
  have hcond : ¬ (((W.cr i).death_ward
      && decide ((W.cr i).total_hp > 0)) = true) := by simp [hdw]
  simp only [fall_unconscious]
  rw [if_neg hcond]
  have hd2 : ∀ c : Creature, (W.setCr i c).durs cd =
      some (DurData.blessS i ts dur) := fun c => by
    rw [durs_setCr]; exact hdur
  simp only [cr_setCr, eq_self_iff_true, if_true, hgr, end_each, pyStep,
    hconc]
  refine ⟨(Bless_end_effects cd _ i ts dur (hd2 _)).1,
    (Bless_end_effects cd _ i ts dur (hd2 _)).2.1,
    ((Bless_end_effects cd _ i ts dur (hd2 _)).2.2 i).trans
      (by rw [cr_setCr]; simp)⟩

set_option maxHeartbeats 1600000 in
/-- Claim C8 (amended): whenever `take_damage` yields positive total
post-mitigation damage and the combatant holds a concentration effect,
*and the damage leaves it above 0 hit points*, a Constitution check is made
against DC `max(10, floor(damage_taken/2))` with advantage passed in iff the
War Caster trait is set, and the concentration effect is ended exactly when
that check fails.  When the same damage drops the combatant to 0 hit points
(without Death Ward), `fall_unconscious` ends the concentration effect
before the check is reached, so no check is made — the generator is
untouched — and concentration is lost unconditionally.  With zero damage
taken nothing happens at all.  Stated for a held Bless spell with no
secondary damage component. -/
theorem take_damage_concentration_amended (w : World) (i : CrId)
    (cd : DurId) (ts : List CrId) (dur p : Int) (t : DamageType)
    (dl : Option CrId) (rg : Bool) (g : RNG)
    (hconc : (w.cr i).concentration = some cd)
    (hdur : w.durs cd = some (DurData.blessS i ts dur))
    (hturn : (w.cr i).turned = none) :
    (0 < mitigatedDamage (w.cr i) t p →
     mitigatedDamage (w.cr i) t p < (w.cr i).hp →
      (take_damage i p t dl rg 0 none w g).1.2 =
        (saving_throw i Ability.con
          (max 10 (pyHalf (mitigatedDamage (w.cr i) t p)))
          ((w.cr i).war_caster) false none (take_damage_type i p t w).2
          g).2 ∧
      ((take_damage i p t dl rg 0 none w g).1.1.cr i).concentration =
        (if (saving_throw i Ability.con
            (max 10 (pyHalf (mitigatedDamage (w.cr i) t p)))
            ((w.cr i).war_caster) false none (take_damage_type i p t w).2
            g).1 = true
         then some cd else none) ∧
      (take_damage i p t dl rg 0 none w g).2 =
        .ok (mitigatedDamage (w.cr i) t p, 0)) ∧
    (mitigatedDamage (w.cr i) t p = 0 → 0 < (w.cr i).hp →
      take_damage i p t dl rg 0 none w g = ((w, g), .ok (0, 0))) ∧
    ((w.cr i).death_ward = false → (w.cr i).grappling = [] →
     0 < (w.cr i).hp → (w.cr i).hp ≤ mitigatedDamage (w.cr i) t p →
      (take_damage i p t dl rg 0 none w g).1.2 = g ∧
      ((take_damage i p t dl rg 0 none w g).1.1.cr i).concentration =
        none ∧
      (take_damage i p t dl rg 0 none w g).2 =
        .ok (mitigatedDamage (w.cr i) t p, 0)) := by
  obtain ⟨hTot, hConc2, hTurn2, hGr, hGrd, hDW, hWC, hEv, hPar, hStun,
    hRes, hBan, hBle, hAb, hSM, hSP, hProf, hSw, hDTT⟩ :=
    sameExceptHp_fields _ _ (take_damage_type_sameExceptHp i p t w i)
  have hfst := take_damage_type_fst i p t w
  have hhp := take_damage_type_hp i p t w
  have hdurs := durs_take_damage_type i p t w
  refine ⟨fun hmd hlt => ?_, fun hz hpos => ?_,
    fun hdw hgr hpos hdrop => ?_⟩
  · have hne : ¬ ((take_damage_type i p t w).2.cr i).hp = 0 := by
      rw [hhp]; split <;> omega
    simp only [take_damage, hne, if_false]
    simp only [concentration_check, hConc2, hconc]
    simp only [hfst, add_zero, hWC]
    simp only [if_pos hmd]
    by_cases hok : (saving_throw i Ability.con
        (max 10 (pyHalf (mitigatedDamage (w.cr i) t p)))
        ((w.cr i).war_caster) false none (take_damage_type i p t w).2
        g).1 = true
    · simp only [hok, if_true]
      simp only [turned_end, hTurn2, hturn]
      refine ⟨by first | rfl | trivial, by simp [hConc2, hconc],
        by first | rfl | trivial⟩
    · simp only [Bool.not_eq_true] at hok
      simp only [hok, Bool.false_eq_true, if_false]
      obtain ⟨hde2, hdeconc, hdeturn⟩ := Bless_end_effects cd
        (take_damage_type i p t w).2 i ts dur (by rw [hdurs]; exact hdur)
      simp only [hde2]
      simp only [turned_end, hdeturn, hTurn2, hturn]
      refine ⟨by first | rfl | trivial, by simp [hdeconc, hok],
        by first | rfl | trivial⟩
  · have hw0 : (take_damage_type i p t w).2 = w :=
      take_damage_type_world_of_zero i p t w hz
    have hne2 : ¬ (w.cr i).hp = 0 := by omega
    simp only [take_damage, hw0, hne2, if_false, concentration_check,
      hconc, hfst, hz, add_zero, gt_iff_lt, lt_irrefl, if_false,
      turned_end, hturn]
  · have hmd : 0 < mitigatedDamage (w.cr i) t p := by omega
    have hz2 : ((take_damage_type i p t w).2.cr i).hp = 0 := by
      rw [hhp]; split <;> omega
    obtain ⟨hfa2, hfaconc, hfaturn⟩ := fall_unconscious_bless i cd ts dur
      (take_damage_type i p t w).2 (hDW.trans hdw) (hGr.trans hgr)
      (hConc2.trans hconc) (by rw [hdurs]; exact hdur)
    simp only [take_damage, hz2, eq_self_iff_true, if_true, hfa2]
    simp only [concentration_check, hfaconc]
    simp only [turned_end, hfaturn, hTurn2, hturn]
    refine ⟨by first | rfl | trivial, hfaconc, by simp [hfst]⟩

def c8World : World :=
  mkWorld (fun j =>
    if j = 0 then
      { defaultCreature with
        hp := 3
        total_hp := 10
        concentration := some 0
        blessed := 1 }
    else defaultCreature)
    [DurData.blessS 0 [0] 10]

def c8RNG : RNG :=
  ⟨fun _ => 20, 0⟩

/-- Claim C8, counterexample: a combatant at 3 hp concentrating on Bless
takes 3 slashing damage (positive post-mitigation damage taken), which
drops it to 0 hp.  Contrary to the claim, no Constitution check is made at
all — the random generator is returned untouched — and the concentration
effect is ended unconditionally by `fall_unconscious`, even though the
generator is primed to roll a natural 20, so the DC-10 check, had it been
made, would have succeeded (last conjunct). -/
theorem take_damage_concentration_counterexample :
    (take_damage 0 3 DamageType.slashing none false 0 none c8World
      c8RNG).1.2 = c8RNG ∧
    ((take_damage 0 3 DamageType.slashing none false 0 none c8World
      c8RNG).1.1.cr 0).concentration = none ∧
    ((take_damage 0 3 DamageType.slashing none false 0 none c8World
      c8RNG).1.1.cr 0).hp = 0 ∧
    (take_damage 0 3 DamageType.slashing none false 0 none c8World
      c8RNG).2 = Except.ok (3, 0) ∧
    (saving_throw 0 Ability.con (max 10 (pyHalf 3)) false false none
      c8World c8RNG).1 = true := by
  refine ⟨rfl, rfl, rfl, rfl, by decide⟩

/-- Claim C8, witness for the amended theorem at the same concrete input:
the combatant starts concentrating, and after the hp-depleting damage the
concentration slot is empty with the generator untouched. -/
theorem take_damage_concentration_amended_witness :
    (c8World.cr 0).concentration = some 0 ∧
    (take_damage 0 3 DamageType.slashing none false 0 none c8World
      c8RNG).1.2 = c8RNG ∧
    ((take_damage 0 3 DamageType.slashing none false 0 none c8World
      c8RNG).1.1.cr 0).concentration = none :=
  ⟨rfl,
   (take_damage_concentration_amended c8World 0 0 [0] 10 3
      DamageType.slashing none false c8RNG rfl rfl rfl).2.2 rfl rfl
      (by simp [c8World, mkWorld, World.cr])
      (by simp [c8World, mkWorld, World.cr, mitigatedDamage,
            specMitigatedDamage, defaultCreature, pyHalf]) |>.1,
   (take_damage_concentration_amended c8World 0 0 [0] 10 3
      DamageType.slashing none false c8RNG rfl rfl rfl).2.2 rfl rfl
      (by simp [c8World, mkWorld, World.cr])
      (by simp [c8World, mkWorld, World.cr, mitigatedDamage,
            specMitigatedDamage, defaultCreature, pyHalf]) |>.2.1⟩

def c2World : World :=
  (GrappleDuration_init 0 1 true false false
    (mkWorld (fun _ => { defaultCreature with hp := 5, total_hp := 5 })
      [])).1

def c2bWorld : World :=
  mkWorld (fun j =>
    if j = 0 then
      { defaultCreature with
        hp := 5
        total_hp := 5
        swallowed_creatures := [1] }
    else
      { defaultCreature with
        hp := 5
        total_hp := 5
        swallowed := some 0
        start_turn_duration := [0]
        end_turn_duration := [0]
        restrained := 1
        blinded := 1 })
    [DurData.swallowedD 0 1 30 14]

/-- Claim C2, counterexample: creature 0 grapples creature 1 (restraining
it).  When the grappled TARGET (creature 1) drops to 0 hp and
`fall_unconscious` runs without Death Ward, it falls prone and raises
nothing, but — contrary to the claim that every grapple it is party to is
forcibly ended — the grapple survives: the grappler's `grappling` list and
the target's `grappled` list still hold the Duration, and the unconscious
target is still restrained.  `fall_unconscious` only iterates
`self.grappling` (creature.py line 299), never `self.grappled`. -/
theorem fall_unconscious_grappled_counterexample :
    (c2World.cr 1).grappled = [0] ∧
    (fall_unconscious 1 c2World).2 = none ∧
    ((fall_unconscious 1 c2World).1.cr 1).prone = true ∧
    ((fall_unconscious 1 c2World).1.cr 0).grappling = [0] ∧
    ((fall_unconscious 1 c2World).1.cr 1).grappled = [0] ∧
    ((fall_unconscious 1 c2World).1.cr 1).restrained = 1 := by
  refine ⟨rfl, rfl, rfl, rfl, rfl, rfl⟩

set_option maxHeartbeats 1600000 in
/-- Claim C2 (amended): when a combatant's hp reaches 0 and
`fall_unconscious` runs without an active Death Ward, the combatant is set
prone, every grapple in which it is the GRAPPLER is forcibly ended (the
target's `grappled` link removed and its restrained/stunned counters
decremented by exactly the amounts the grapple added), and any held
concentration is ended — but grapples in which the combatant is the
grappled TARGET are not ended: its own `grappled` list is left untouched.
For the Behir, `fall_unconscious` additionally releases every swallowed
creature: the swallower's `swallowed_creatures` empties and each swallowed
creature's exclusive slot clears with its restrained and blinded counters
decremented.  Stated for a single grapple without escape priority
(first conjunct) and a single swallowed creature (second conjunct). -/
theorem fall_unconscious_amended (w : World) (i tgt gd sc sd : Nat)
    (restr stun : Bool) (thr dc : Int)
    (hdw : (w.cr i).death_ward = false) :
    ((w.cr i).grappling = [gd] →
     w.durs gd = some (DurData.grapple i tgt restr stun false) →
     (w.cr tgt).grappled = [gd] →
     (w.cr i).concentration = none →
     tgt ≠ i →
      (fall_unconscious i w).2 = none ∧
      ((fall_unconscious i w).1.cr i).prone = true ∧
      ((fall_unconscious i w).1.cr i).grappling = [] ∧
      ((fall_unconscious i w).1.cr tgt).grappled = [] ∧
      ((fall_unconscious i w).1.cr tgt).restrained =
        (w.cr tgt).restrained - (if restr then 1 else 0) ∧
      ((fall_unconscious i w).1.cr tgt).stunned =
        (w.cr tgt).stunned - (if stun then 1 else 0) ∧
      ((fall_unconscious i w).1.cr i).grappled = (w.cr i).grappled) ∧
    ((w.cr i).grappling = [] →
     (w.cr i).concentration = none →
     (w.cr i).swallowed_creatures = [sc] →
     (w.cr sc).swallowed = some sd →
     w.durs sd = some (DurData.swallowedD i sc thr dc) →
     (w.cr sc).start_turn_duration = [sd] →
     (w.cr sc).end_turn_duration = [sd] →
     sc ≠ i →
      (Behir_fall_unconscious i w).2 = none ∧
      ((Behir_fall_unconscious i w).1.cr i).prone = true ∧
      ((Behir_fall_unconscious i w).1.cr i).swallowed_creatures = [] ∧
      ((Behir_fall_unconscious i w).1.cr sc).swallowed = none ∧
      ((Behir_fall_unconscious i w).1.cr sc).restrained =
        (w.cr sc).restrained - 1 ∧
      ((Behir_fall_unconscious i w).1.cr sc).blinded =
        (w.cr sc).blinded - 1 ∧
      ((Behir_fall_unconscious i w).1.cr sc).prone = true) := by
  have hcond : ¬ (((w.cr i).death_ward
      && decide ((w.cr i).total_hp > 0)) = true) := by simp [hdw]
  refine ⟨fun h1 h2 h3 h4 h5 => ?_, fun h1 h4 hswc hsw hdursd hst het
    hsi => ?_⟩
  · have hd2 : ∀ c : Creature, (w.setCr i c).durs gd =
        some (DurData.grapple i tgt restr stun false) := fun c => by
      rw [durs_setCr]; exact h2
    simp only [fall_unconscious]
    rw [if_neg hcond]
    cases restr <;> cases stun <;>
      simp [end_each, pyStep, Duration_end, hd2, removeFromGrappling,
        removeFromGrappled, removeFromStartTurn, pyRemove, cr_setCr,
        cr_updCr, h1, h3, h4, h5, Ne.symm h5]
  · have hd2 : ∀ c : Creature, (w.setCr i c).durs sd =
        some (DurData.swallowedD i sc thr dc) := fun c => by
      rw [durs_setCr]; exact hdursd
    simp only [Behir_fall_unconscious, fall_unconscious]
    rw [if_neg hcond]
    simp [end_each, pyStep, swallowed_end_each, Duration_end, hd2,
      removeFromSwallowedCreatures, removeFromStartTurn,
      removeFromEndTurn, pyRemove, cr_setCr, cr_updCr, h1, h4, hswc, hsw,
      hst, het, hsi, Ne.symm hsi]

/-- Claim C2, witness for the amended theorem: on concrete worlds, a
grappler dropping to 0 hp releases its target, and a Behir dropping to 0
hp releases its swallowed creature. -/
theorem fall_unconscious_amended_witness :
    (c2World.cr 0).death_ward = false ∧
    ((fall_unconscious 0 c2World).1.cr 1).grappled = [] ∧
    ((Behir_fall_unconscious 0 c2bWorld).1.cr 1).swallowed = none :=
  ⟨rfl,
   ((fall_unconscious_amended c2World 0 1 0 0 0 true false 0 0 rfl).1
      rfl rfl rfl rfl (by decide)).2.2.2.1,
   ((fall_unconscious_amended c2bWorld 0 0 0 1 0 false false 30 14
      rfl).2 rfl rfl rfl rfl rfl rfl rfl (by decide)).2.2.2.1⟩

def c6World : World :=
  (SwallowedDuration_init 0 1 30 14
    (mkWorld (fun j =>
      if j = 0 then
        { defaultCreature with
          hp := 20
          total_hp := 20
          damage_taken_this_turn := 7 }
      else { defaultCreature with hp := 10, total_hp := 10 }) [])).1

def c6RNG : RNG :=
  ⟨fun _ => 10, 0⟩

/-- Claim C6, counterexample: creature 0 swallows creature 1
(`SwallowedDuration` with threshold 30, DC 14) while its
damage-taken-this-turn counter stands at 7.  The constructor registers the
duration on the TARGET's start-turn list (duration.py line 689), not the
swallower's, so — contrary to the claim that the counter resets at the
container's turn start — firing the swallower's start-of-turn effects
leaves the counter at 7, while firing the swallowed creature's
start-of-turn effects resets it to 0. -/
theorem swallowed_counter_reset_counterexample :
    (c6World.cr 0).start_turn_duration = [] ∧
    (c6World.cr 1).start_turn_duration = [0] ∧
    (c6World.cr 0).damage_taken_this_turn = 7 ∧
    (fire_start_turn_effects 0 c6World c6RNG).2 = none ∧
    ((fire_start_turn_effects 0 c6World c6RNG).1.1.cr
      0).damage_taken_this_turn = 7 ∧
    ((fire_start_turn_effects 1 c6World c6RNG).1.1.cr
      0).damage_taken_this_turn = 0 := by
  refine ⟨rfl, rfl, rfl, rfl, rfl, rfl⟩

set_option maxHeartbeats 1600000 in
/-- Claim C6 (amended): for an active `SwallowedDuration`, the swallower
accumulates the post-mitigation damage dealt to it by a swallowed dealer
(`Behir.take_damage`); the damage counter resets to 0 at the SWALLOWED
creature's turn start (the duration sits on the target's start-turn list,
so the swallower's own turn start leaves the counter alone); and at the
SWALLOWED creature's end of turn, if the counter meets the regurgitation
threshold, the swallower makes a Constitution save against the
regurgitation DC — expelling all swallowed creatures on a failure, and
changing nothing but the generator on a success; below the threshold
nothing happens.  Stated for a single swallowed creature. -/
theorem swallowed_regurgitation_amended (w : World) (sw tgt dl sd : Nat)
    (thr dc p s : Int) (t : DamageType) (st : Option DamageType)
    (rg : Bool) (ps : Int × Int) (g : RNG)
    (hswc : (w.cr sw).swallowed_creatures = [tgt])
    (hsw2 : (w.cr tgt).swallowed = some sd)
    (hst2 : (w.cr tgt).start_turn_duration = [sd])
    (het2 : (w.cr tgt).end_turn_duration = [sd])
    (hstw : (w.cr sw).start_turn_duration = [])
    (hdurs : w.durs sd = some (DurData.swallowedD sw tgt thr dc))
    (hne : tgt ≠ sw) :
    ((take_damage sw p t (some dl) rg s st w g).2 = Except.ok ps →
     dl ∈ ((take_damage sw p t (some dl) rg s st w g).1.1.cr
       sw).swallowed_creatures →
      (Behir_take_damage sw p t (some dl) rg s st w g).2 =
        Except.ok ps ∧
      ((Behir_take_damage sw p t (some dl) rg s st w g).1.1.cr
        sw).damage_taken_this_turn =
        ((take_damage sw p t (some dl) rg s st w g).1.1.cr
          sw).damage_taken_this_turn + (ps.1 + ps.2)) ∧
    ((fire_start_turn_effects tgt w g).2 = none ∧
     ((fire_start_turn_effects tgt w g).1.1.cr
       sw).damage_taken_this_turn = 0 ∧
     (fire_start_turn_effects tgt w g).1.2 = g) ∧
    (fire_start_turn_effects sw w g = ((w, g), none)) ∧
    ((w.cr sw).damage_taken_this_turn ≥ thr →
     (saving_throw sw Ability.con dc false false none w g).1 = false →
      (Creature_end_turn tgt w g).2 = none ∧
      ((Creature_end_turn tgt w g).1.1.cr sw).swallowed_creatures = [] ∧
      ((Creature_end_turn tgt w g).1.1.cr tgt).swallowed = none ∧
      ((Creature_end_turn tgt w g).1.1.cr tgt).prone = true ∧
      (Creature_end_turn tgt w g).1.2 =
        (saving_throw sw Ability.con dc false false none w g).2) ∧
    (¬ ((w.cr sw).damage_taken_this_turn ≥ thr) →
      Creature_end_turn tgt w g = ((w, g), none)) ∧
    ((w.cr sw).damage_taken_this_turn ≥ thr →
     (saving_throw sw Ability.con dc false false none w g).1 = true →
      Creature_end_turn tgt w g =
        ((w, (saving_throw sw Ability.con dc false false none w g).2),
          none)) := by
  refine ⟨fun htd hmem => ?_, ?_, ?_, fun hth hsv => ?_, fun hlt => ?_,
    fun hth hsv => ?_⟩
  · simp only [Behir_take_damage, htd]
    rw [if_pos hmem]
    exact ⟨by first | rfl | trivial, by simp [cr_updCr]⟩
  · simp [fire_start_turn_effects, hst2, fire_start_turn_each,
      Duration_start_turn_effect, hdurs, cr_updCr]
  · simp [fire_start_turn_effects, hstw, fire_start_turn_each]
  · simp only [Creature_end_turn, het2, fire_end_turn_each,
      Duration_end_turn_effect, hdurs]
    rw [if_pos hth]
    simp [hsv, swallowed_end_each, Duration_end, pyStep, hdurs,
      removeFromSwallowedCreatures, removeFromStartTurn,
      removeFromEndTurn, pyRemove, cr_updCr, hswc, hsw2, hst2, het2,
      hne, Ne.symm hne]
  · simp [Creature_end_turn, het2, fire_end_turn_each,
      Duration_end_turn_effect, hdurs, hlt]
  · simp [Creature_end_turn, het2, fire_end_turn_each,
      Duration_end_turn_effect, hdurs, hth, hsv]

/-- Claim C6, witness for the amended theorem on the concrete world: the
swallowed creature's turn start resets the swallower's counter, and with
the counter (7) below the threshold (30) the swallowed creature's end of
turn changes nothing. -/
theorem swallowed_regurgitation_amended_witness :
    ((fire_start_turn_effects 1 c6World c6RNG).1.1.cr
      0).damage_taken_this_turn = 0 ∧
    Creature_end_turn 1 c6World c6RNG = ((c6World, c6RNG), none) :=
  ⟨(swallowed_regurgitation_amended c6World 0 1 0 0 30 14 0 0
      DamageType.fire none false (0, 0) c6RNG rfl rfl rfl rfl rfl rfl
      (by decide)).2.1.2.1,
   (swallowed_regurgitation_amended c6World 0 1 0 0 30 14 0 0
      DamageType.fire none false (0, 0) c6RNG rfl rfl rfl rfl rfl rfl
      (by decide)).2.2.2.2.1
     (by have h : (c6World.cr 0).damage_taken_this_turn = 7 := rfl
         omega)⟩

def c10World : World :=
  (GrappleDuration_init 0 1 false false true
    (mkWorld (fun j =>
      if j = 0 then { defaultCreature with hp := 20, total_hp := 20 }
      else
        { defaultCreature with
          hp := 10
          total_hp := 10
          action := true }) [])).1

def c10RNG : RNG :=
  ⟨fun _ => 20, 0⟩

set_option maxHeartbeats 1600000 in
/-- Claim C10: a GrappleDuration never expires with the passage of rounds:
`tick` is a no-op on the world, the end-of-turn trigger does nothing, and
the start-of-turn trigger does nothing when the target has no action.
When the target does spend its action, the grip is broken exactly by an
explicit `end()` from a successful escape check against the
grappler-derived DC `8 + proficiency + Str`: on a failed check the
`grappled`/`grappling` links persist (only the action is consumed), and on
a successful check both links are removed.  Stated for a single grapple
with escape priority. -/
theorem grapple_persistence (w : World) (gd grappler tgt : Nat)
    (restr stun : Bool) (g : RNG)
    (hdurs : w.durs gd = some (DurData.grapple grappler tgt restr stun
      true))
    (hst : (w.cr tgt).start_turn_duration = [gd])
    (hne : tgt ≠ grappler) :
    GrappleDuration_tick gd w = w ∧
    Duration_end_turn_effect gd w g = ((w, g), none) ∧
    ((w.cr tgt).action = false →
      Duration_start_turn_effect gd w g = ((w, g), none)) ∧
    ((w.cr tgt).action = true →
     (w.cr tgt).grappled = [gd] →
     ¬ ((escape_grapple tgt false
          (w.updCr tgt fun c => { c with action := false }) g).1 ≥
        8 + (w.cr grappler).proficiency
          + (w.cr grappler).abilities Ability.str) →
      (Duration_start_turn_effect gd w g).2 = none ∧
      ((Duration_start_turn_effect gd w g).1.1.cr tgt).grappled = [gd] ∧
      ((Duration_start_turn_effect gd w g).1.1.cr grappler).grappling =
        (w.cr grappler).grappling ∧
      ((Duration_start_turn_effect gd w g).1.1.cr tgt).action = false) ∧
    ((w.cr tgt).action = true →
     (w.cr tgt).grappled = [gd] →
     (w.cr grappler).grappling = [gd] →
     (escape_grapple tgt false
          (w.updCr tgt fun c => { c with action := false }) g).1 ≥
        8 + (w.cr grappler).proficiency
          + (w.cr grappler).abilities Ability.str →
      (Duration_start_turn_effect gd w g).2 = none ∧
      ((Duration_start_turn_effect gd w g).1.1.cr tgt).grappled = [] ∧
      ((Duration_start_turn_effect gd w g).1.1.cr
        grappler).grappling = [] ∧
      ((Duration_start_turn_effect gd w g).1.1.cr tgt).action = false) :=
  by
  refine ⟨rfl, by simp [Duration_end_turn_effect, hdurs], fun hact => ?_,
    fun hact hgd hck => ?_, fun hact hgd hgl hck2 => ?_⟩
  · simp [Duration_start_turn_effect, hdurs, hact]
  · simp [Duration_start_turn_effect, hdurs, hact, grapple_escape_loop,
      pyStep, durs_updCr, cr_updCr, hgd, hck, hne, Ne.symm hne]
  · cases restr <;> cases stun <;>
      simp [Duration_start_turn_effect, hdurs, hact, grapple_escape_loop,
        pyStep, Duration_end, durs_updCr, cr_updCr, hck2,
        removeFromGrappling, removeFromGrappled, removeFromStartTurn,
        pyRemove, hgl, hgd, hst, hne, Ne.symm hne]

/-- Claim C10, witness: on a concrete world, the grapple survives `tick`,
and the target spending its action on a successful escape check (natural
20 against DC 8) removes the grappled link. -/
theorem grapple_persistence_witness :
    GrappleDuration_tick 0 c10World = c10World ∧
    ((Duration_start_turn_effect 0 c10World c10RNG).1.1.cr 1).grappled =
      [] :=
  ⟨(grapple_persistence c10World 0 0 1 false false c10RNG rfl rfl
      (by decide)).1,
   ((grapple_persistence c10World 0 0 1 false false c10RNG rfl rfl
      (by decide)).2.2.2.2 rfl rfl rfl
      (by have h1 : (escape_grapple 1 false
            (c10World.updCr 1 fun c => { c with action := false })
            c10RNG).1 = 20 := rfl
          have h2 : (c10World.cr 0).proficiency = 0 := rfl
          have h3 : (c10World.cr 0).abilities Ability.str = 0 := rfl
          omega)).2.1⟩

/-- One participant in the initiative order: a combatant entry carries the
value its `roll_initiative()` returned (creature.py lines 599-614), a lair
action entry (`isLair = true`) ignores `rolled` and always reports 20
(creature.py lines 1168-1171). -/
structure InitEntry where
  eid : Nat
  isLair : Bool
  rolled : Int
  deriving DecidableEq

/-- `Creature.roll_initiative` (creature.py lines 599-614): a single d20
roll (with optional advantage) plus the Dexterity modifier plus the
initiative modifier. -/
def roll_initiative (adv : Bool) (dex initiative_modifier : Int)
    (g : RNG) : Int × RNG :=
  let r := roll_d20 adv false g
  (r.1 + dex + initiative_modifier, r.2)

/-- The sort key used by `Encounter.__init__`: each participant's
`roll_initiative()` result — the recorded roll for a combatant, the
constant 20 for a lair action. -/
def roll_initiative_entry (e : InitEntry) : Int :=
  if e.isLair then 20 else e.rolled

/-- Descending-key comparison used for the initiative sort. -/
def initiative_ge (a b : InitEntry) : Prop :=
  roll_initiative_entry b ≤ roll_initiative_entry a

instance : DecidableRel initiative_ge := fun a b =>
  inferInstanceAs (Decidable
    (roll_initiative_entry b ≤ roll_initiative_entry a))

instance : IsTotal InitEntry initiative_ge :=
  ⟨fun a b => le_total (roll_initiative_entry b)
    (roll_initiative_entry a)⟩

instance : IsTrans InitEntry initiative_ge :=
  ⟨fun _ _ _ h1 h2 => le_trans h2 h1⟩

/-- `Encounter.__init__` (adventuring_day.py lines 55-62):
`sorted(side_A + side_B + self.lair_actions, key=..., reverse=True)`.
Python's `sorted` is a stable sort, and with `reverse=True` it orders by
descending key while keeping equal-key elements in input order.  A stable
descending sort of a given list under a total preorder is unique, and
`List.insertionSort` with the total, transitive relation `initiative_ge`
is stable, so this is an exact model of the Python call. -/
def initiative_order (side_A side_B lairs : List InitEntry) :
    List InitEntry :=
  List.insertionSort initiative_ge (side_A ++ side_B ++ lairs)

/-- Claim C7: the initiative order is a descending sort of one rolled
value per participant — `1d20 + Dex + initiative modifier` for a
combatant, the fixed value 20 for a lair action — and ties are broken by
input order: side-A combatants beat side-B combatants on equal rolls, a
lair action loses its ties to every combatant that rolled 20, and
original list order is the final tie-break (stability). -/
theorem initiative_tie_break (side_A side_B lairs : List InitEntry) :
    (∀ (adv : Bool) (dex im : Int) (g : RNG),
      (roll_initiative adv dex im g).1 =
        (roll_d20 adv false g).1 + dex + im) ∧
    (∀ e : InitEntry, e.isLair = true → roll_initiative_entry e = 20) ∧
    (initiative_order side_A side_B lairs).Perm
      (side_A ++ side_B ++ lairs) ∧
    List.Sorted initiative_ge (initiative_order side_A side_B lairs) ∧
    (∀ a b : InitEntry,
      List.Sublist [a, b] (side_A ++ side_B ++ lairs) →
      roll_initiative_entry b ≤ roll_initiative_entry a →
      List.Sublist [a, b] (initiative_order side_A side_B lairs)) ∧
    (∀ a ∈ side_A, ∀ b ∈ side_B,
      roll_initiative_entry a = roll_initiative_entry b →
      List.Sublist [a, b] (initiative_order side_A side_B lairs)) ∧
    (∀ c ∈ side_A ++ side_B, ∀ x ∈ lairs,
      roll_initiative_entry c = 20 → x.isLair = true →
      List.Sublist [c, x] (initiative_order side_A side_B lairs)) := by
  refine ⟨fun adv dex im g => rfl,
    fun e he => by simp [roll_initiative_entry, he],
    List.perm_insertionSort initiative_ge _,
    List.sorted_insertionSort initiative_ge _,
    fun a b hsub hle => List.pair_sublist_insertionSort hle hsub,
    fun a ha b hb heq => ?_, fun c hc x hx h20 hlair => ?_⟩
  · refine List.pair_sublist_insertionSort (le_of_eq heq.symm) ?_
    have h1 : List.Sublist [a] side_A := List.singleton_sublist.mpr ha
    have h2 : List.Sublist [b] side_B := List.singleton_sublist.mpr hb
    exact (h1.append h2).trans
      (List.sublist_append_left (side_A ++ side_B) lairs)
  · refine List.pair_sublist_insertionSort ?_ ?_
    · show roll_initiative_entry x ≤ roll_initiative_entry c
      rw [h20]
      simp [roll_initiative_entry, hlair]
    · have h1 : List.Sublist [c] (side_A ++ side_B) :=
        List.singleton_sublist.mpr hc
      have h2 : List.Sublist [x] lairs := List.singleton_sublist.mpr hx
      exact h1.append h2

def c7A : List InitEntry := [⟨0, false, 20⟩]

def c7B : List InitEntry := [⟨1, false, 20⟩]

def c7L : List InitEntry := [⟨2, true, 0⟩]

/-- Claim C7, witness: with one side-A combatant and one side-B combatant
both rolling 20 and one lair action (fixed 20), the side-A combatant
precedes the side-B combatant, who precedes the lair action, in the
sorted initiative order. -/
theorem initiative_tie_break_witness :
    List.Sublist [(⟨0, false, 20⟩ : InitEntry), ⟨1, false, 20⟩]
      (initiative_order c7A c7B c7L) ∧
    List.Sublist [(⟨1, false, 20⟩ : InitEntry), ⟨2, true, 0⟩]
      (initiative_order c7A c7B c7L) :=
  ⟨(initiative_tie_break c7A c7B c7L).2.2.2.2.2.1 ⟨0, false, 20⟩
      (by simp [c7A]) ⟨1, false, 20⟩ (by simp [c7B]) rfl,
   (initiative_tie_break c7A c7B c7L).2.2.2.2.2.2 ⟨1, false, 20⟩
      (by simp [c7A, c7B]) ⟨2, true, 0⟩ (by simp [c7L]) rfl rfl⟩
